import Mathlib

/-!
Verification of the p2pchat session/membership authority and abuse-control
layer (server/src/sessionManager.js and server/src/socketHandlers.js).

The JavaScript code is embedded shallowly:

* A JS `Map` is modelled as an association list in insertion order
  (`Jmap`): `set` replaces in place when the key is present and appends
  otherwise, `delete` removes the entry, `size` is the list length, and
  iteration follows list order - exactly the observable behaviour of a JS
  `Map` (whose keys are unique, mirrored here by a no-duplicate-keys
  invariant proved for all reachable states).
* A JS `Set` is modelled as a list with membership-checked insertion.
* `Date.now()` and the random draws of `generateSessionCode` /
  `generateNickname` are inputs (`now : Nat`, `picks : List Nat`,
  `genNick : String`): each operation receives the values the impure
  calls would have produced.
* `setTimeout(cb, 300000)` in `trackAbuse` is modelled by appending a
  `BlockTimer` record to the state; `fireBlockTimeout` is the callback's
  body, run when the TTL elapses.
* In-place mutation of a session object fetched from the registry is
  rendered by writing the updated session back under the same key.
-/

namespace P2PChat

set_option maxRecDepth 8000

/-- Association-list rendering of a JS `Map` (insertion order preserved). -/
abbrev Jmap (K V : Type) := List (K × V)

/-- JS `map.get(k)`: the value of the (unique) entry with the key. -/
def jget [BEq K] (m : Jmap K V) (k : K) : Option V :=
  match m with
  | [] => none
  | p :: m => if p.1 == k then some p.2 else jget m k

/-- JS `map.has(k)`. -/
def jhas [BEq K] (m : Jmap K V) (k : K) : Bool :=
  match m with
  | [] => false
  | p :: m => p.1 == k || jhas m k

/-- JS `map.set(k, v)`: replace in place when the key is present, append
at the end otherwise. -/
def jset [BEq K] (m : Jmap K V) (k : K) (v : V) : Jmap K V :=
  match m with
  | [] => [(k, v)]
  | p :: m => if p.1 == k then (k, v) :: m else p :: jset m k v

/-- JS `map.delete(k)` (the resulting map). -/
def jdel [BEq K] (m : Jmap K V) (k : K) : Jmap K V :=
  match m with
  | [] => []
  | p :: m => if p.1 == k then jdel m k else p :: jdel m k

/-- JS `map.size`. -/
def jsize (m : Jmap K V) : Nat := m.length

/-- JS `set.add(x)` on a Set modelled as a list. -/
def jsAdd [BEq K] (l : List K) (x : K) : List K :=
  if l.contains x then l else l ++ [x]

/-- JS `String.prototype.toUpperCase` on the ASCII range (session codes and
addresses are ASCII). -/
def jsToUpper (s : String) : String := String.mk (s.data.map Char.toUpper)

/-- A JS whitespace character (the ASCII ones relevant after sanitizing). -/
def isJsSpace (c : Char) : Bool :=
  c = ' ' || c = '\t' || c = '\n' || c = '\r' || c = '\x0b' || c = '\x0c'

/-- JS `String.prototype.trim` (ASCII whitespace). -/
def jsTrim (s : String) : String :=
  String.mk (((s.data.dropWhile isJsSpace).reverse.dropWhile isJsSpace).reverse)

-- =========================================================================
-- Data model (sessionManager.js)
-- =========================================================================

/-- A member record as stored in `session.users` (sessionManager.js:830,869). -/
structure User where
  id : String
  nickname : String
  joinedAt : Nat
  isAdmin : Bool
  clientIP : Option String := none
deriving DecidableEq, Repr

/-- A ban record as stored in `session.bannedUsers` (sessionManager.js:891). -/
structure BanInfo where
  nickname : String
  bannedAt : Nat
  reason : String
deriving DecidableEq, Repr

/-- A session object (sessionManager.js:818-828).  `adminId` is assigned at
creation and never cleared or reassigned anywhere in the source, so it is a
plain `String` here (it is never `null` in the JS either). -/
structure Session where
  code : String
  createdAt : Nat
  lastActivity : Nat
  adminId : String
  users : Jmap String User
  publicKeys : Jmap String String
  bannedUsers : Jmap String BanInfo
deriving DecidableEq, Repr

/-- The `SessionManager` state: `this.sessions` (sessionManager.js:780). -/
structure SMState where
  sessions : Jmap String Session
deriving DecidableEq, Repr

/-- Source `MAX_USERS` (sessionManager.js:784). -/
def MAX_USERS : Nat := 64

/-- Source `SESSION_EXPIRY` = 15 minutes (sessionManager.js:782). -/
def SESSION_EXPIRY : Nat := 15 * 60 * 1000

/-- The 36-symbol alphabet of `generateSessionCode` (sessionManager.js:791). -/
def codeAlphabet : List Char :=
  "ABCDEFGHIJKLMNOPQRSTUVWXYZ0123456789".toList

/-- Source `generateSessionCode` (sessionManager.js:790-797): eight draws from the
alphabet.  `picks` supplies the values of `Math.floor(Math.random() * 36)`.
Note the function consults nothing but the random source - in particular it
never looks at the live registry, so there is no collision retry. -/
def generateSessionCode (picks : List Nat) : String :=
  String.mk (((List.range 8).map (fun i => codeAlphabet.getD (picks.getD i 0 % 36) 'A')))

/-- Result object of `createSession` (sessionManager.js:839). -/
structure CreateResult where
  code : String
  nickname : String
  session : Session
deriving DecidableEq, Repr

/-- Source `createSession` (sessionManager.js:814-840).  It draws one code via
`generateSessionCode`, builds the session with the creator as sole member
and admin, and unconditionally executes `this.sessions.set(code, session)` -
replacing any live session that already holds that code. -/
def createSession (st : SMState) (creatorSocketId : String)
    (customNickname : Option String) (picks : List Nat) (genNick : String)
    (now : Nat) : CreateResult × SMState :=
  let code := generateSessionCode picks
  let nickname := customNickname.getD genNick
  let session : Session :=
    { code := code, createdAt := now, lastActivity := now,
      adminId := creatorSocketId,
      users := jset ([] : Jmap String User) creatorSocketId
        { id := creatorSocketId, nickname := nickname, joinedAt := now,
          isAdmin := true },
      publicKeys := [], bannedUsers := [] }
  ({ code := code, nickname := nickname, session := session },
   { sessions := jset st.sessions code session })

/-- The result object of `joinSession`, also reused as the ack the
`join-session` handler sends back (the failure branch of the handler passes
the manager's result object through unchanged; the success branch builds a
fresh object with `code`, `users` and `adminId` fields).  Absent JS fields
are `none` / `[]`. -/
structure JoinResult where
  success : Bool
  error : Option String := none
  banned : Option Bool := none
  bannedNickname : Option String := none
  nickname : Option String := none
  session : Option Session := none
  code : Option String := none
  users : List User := []
  adminId : Option String := none
deriving DecidableEq, Repr

/-- Source `joinSession` (sessionManager.js:845-880).  Order of checks as in the
source: unknown code, capacity, ban by address, then the actual join. -/
def joinSession (st : SMState) (code socketId : String)
    (customNickname : Option String) (clientIP : Option String)
    (genNick : String) (now : Nat) : JoinResult × SMState :=
  match jget st.sessions (jsToUpper code) with
  | none => ({ success := false, error := some "Session not found" }, st)
  | some session =>
    if MAX_USERS ≤ jsize session.users then
      ({ success := false, error := some "Session is full (max 64 users)" }, st)
    else
      match clientIP with
      | some ip =>
        (match jget session.bannedUsers ip with
         | some banInfo =>
           ({ success := false,
              error := some "You have been banned from this session. Contact the admin for approval.",
              banned := some true,
              bannedNickname := some banInfo.nickname }, st)
         | none =>
           let nickname := customNickname.getD genNick
           let session' :=
             { session with
               users := jset session.users socketId
                 { id := socketId, nickname := nickname, joinedAt := now,
                   isAdmin := false, clientIP := clientIP },
               lastActivity := now }
           ({ success := true, nickname := some nickname, session := some session' },
            { sessions := jset st.sessions (jsToUpper code) session' }))
      | none =>
        let nickname := customNickname.getD genNick
        let session' :=
          { session with
            users := jset session.users socketId
              { id := socketId, nickname := nickname, joinedAt := now,
                isAdmin := false, clientIP := none },
            lastActivity := now }
        ({ success := true, nickname := some nickname, session := some session' },
         { sessions := jset st.sessions (jsToUpper code) session' })

/-- Source `banUser` (sessionManager.js:885-899).  `clientIP = none` models a falsy
IP, for which the source does nothing and returns `false`. -/
def banUser (st : SMState) (code : String) (clientIP : Option String)
    (nickname : String) (now : Nat) : Bool × SMState :=
  match jget st.sessions (jsToUpper code), clientIP with
  | some session, some ip =>
    (true,
     { sessions := jset st.sessions (jsToUpper code)
         { session with
           bannedUsers := jset session.bannedUsers ip
             { nickname := nickname, bannedAt := now, reason := "Kicked by admin" } } })
  | _, _ => (false, st)

/-- Source `unbanUser` (sessionManager.js:904-910): `bannedUsers.delete` returns
whether the entry existed. -/
def unbanUser (st : SMState) (code userIP : String) : Bool × SMState :=
  match jget st.sessions (jsToUpper code) with
  | some session =>
    (jhas session.bannedUsers userIP,
     { sessions := jset st.sessions (jsToUpper code)
         { session with bannedUsers := jdel session.bannedUsers userIP } })
  | none => (false, st)

/-- Source `getBannedUsers` (sessionManager.js:915-925), entries as (ip, nickname, bannedAt). -/
def getBannedUsers (st : SMState) (code : String) : List (String × String × Nat) :=
  match jget st.sessions (jsToUpper code) with
  | some session => session.bannedUsers.map (fun p => (p.1, p.2.nickname, p.2.bannedAt))
  | none => []

/-- Source `getSession` (sessionManager.js:930-932): case-insensitive lookup. -/
def getSession (st : SMState) (code : String) : Option Session :=
  jget st.sessions (jsToUpper code)

/-- Source `getSessionBySocketId` (sessionManager.js:937-944): first session (in
insertion order) whose `users` map has the socket id. -/
def getSessionBySocketId (st : SMState) (socketId : String) :
    Option (String × Session) :=
  st.sessions.find? (fun p => jhas p.2.users socketId)

/-- Result object of `removeUser` (sessionManager.js:963,967).  `user` is
`session.users.get(socketId)` and hence an `Option` as in JS. -/
structure RemoveResult where
  code : String
  user : Option User
  sessionDestroyed : Bool
  remainingUsers : Option Nat := none
deriving DecidableEq, Repr

/-- Source `removeUser` (sessionManager.js:949-968).  The source's local consts
(`user`, the post-delete `users` and `publicKeys`) are inlined. -/
def removeUser (st : SMState) (socketId : String) (now : Nat) :
    Option RemoveResult × SMState :=
  match getSessionBySocketId st socketId with
  | none => (none, st)
  | some (code, session) =>
    if jsize (jdel session.users socketId) = 0 then
      (some { code := code, user := jget session.users socketId,
              sessionDestroyed := true },
       { sessions := jdel st.sessions code })
    else
      (some { code := code, user := jget session.users socketId,
              sessionDestroyed := false,
              remainingUsers := some (jsize (jdel session.users socketId)) },
       { sessions := jset st.sessions code
           { session with users := jdel session.users socketId,
                          publicKeys := jdel session.publicKeys socketId,
                          lastActivity := now } })

/-- Source `storePublicKey` (sessionManager.js:973-980), state part. -/
def storePublicKey (st : SMState) (code socketId pk : String) : SMState :=
  match jget st.sessions (jsToUpper code) with
  | some session =>
    { sessions := jset st.sessions (jsToUpper code)
        { session with publicKeys := jset session.publicKeys socketId pk } }
  | none => st

/-- Source `getUsers` (sessionManager.js:996-1002). -/
def getUsers (st : SMState) (code : String) : List User :=
  match jget st.sessions (jsToUpper code) with
  | some session => session.users.map (fun p => p.2)
  | none => []

/-- Source `updateActivity` (sessionManager.js:1007-1012). -/
def updateActivity (st : SMState) (code : String) (now : Nat) : SMState :=
  match jget st.sessions (jsToUpper code) with
  | some session =>
    { sessions := jset st.sessions (jsToUpper code) { session with lastActivity := now } }
  | none => st

/-- Source `cleanupExpiredSessions` (sessionManager.js:1017-1032). -/
def cleanupExpiredSessions (st : SMState) (now : Nat) : SMState :=
  { sessions := st.sessions.filter
      (fun p => !(decide (SESSION_EXPIRY < now - p.2.lastActivity))) }

/-- Source `getActiveSessionCount` (sessionManager.js:1037-1039). -/
def getActiveSessionCount (st : SMState) : Nat := jsize st.sessions

-- =========================================================================
-- Abuse control (socketHandlers.js:17-135)
-- =========================================================================

/-- An entry of `messageRateLimiter` / `socketRateLimiters` / `abuseCounter`:
the `{count, windowStart}` objects of socketHandlers.js. -/
structure RateEntry where
  count : Nat
  windowStart : Nat
deriving DecidableEq, Repr

/-- A pending `setTimeout` scheduled by `trackAbuse` (socketHandlers.js:119-123):
at `fireAt` the callback unblocks `socketId` and `ip` and deletes `key` from
the abuse counter. -/
structure BlockTimer where
  fireAt : Nat
  socketId : String
  ip : String
  key : String
deriving DecidableEq, Repr

/-- The module-level mutable state of socketHandlers.js:17-29. -/
structure RLState where
  messageRateLimiter : Jmap String RateEntry := []
  socketRateLimiters : Jmap String RateEntry := []
  blockedSockets : List String := []
  blockedIPs : List String := []
  abuseCounter : Jmap String RateEntry := []
  timers : List BlockTimer := []
deriving DecidableEq, Repr

/-- Source `ABUSE_THRESHOLD` (socketHandlers.js:28). -/
def ABUSE_THRESHOLD : Nat := 50

/-- Source `ABUSE_WINDOW` (socketHandlers.js:29). -/
def ABUSE_WINDOW : Nat := 60000

/-- The block TTL of the `setTimeout` in `trackAbuse` (socketHandlers.js:123). -/
def BLOCK_TTL : Nat := 300000

/-- The compound abuse key `ip:socketId` (socketHandlers.js:99). -/
def abuseKey (ip socketId : String) : String := ip ++ ":" ++ socketId

/-- Source `trackAbuse` (socketHandlers.js:97-125). -/
def trackAbuse (st : RLState) (socketId ip : String) (now : Nat) : RLState :=
  let key := abuseKey ip socketId
  match jget st.abuseCounter key with
  | none =>
    { st with abuseCounter := jset st.abuseCounter key { count := 1, windowStart := now } }
  | some abuse =>
    if ABUSE_WINDOW < now - abuse.windowStart then
      { st with abuseCounter := jset st.abuseCounter key { count := 1, windowStart := now } }
    else
      let c := abuse.count + 1
      let st1 :=
        { st with abuseCounter := jset st.abuseCounter key { count := c, windowStart := abuse.windowStart } }
      if ABUSE_THRESHOLD ≤ c then
        { st1 with blockedSockets := jsAdd st1.blockedSockets socketId,
                   blockedIPs := jsAdd st1.blockedIPs ip,
                   timers := st1.timers ++ [{ fireAt := now + BLOCK_TTL, socketId := socketId, ip := ip, key := key }] }
      else st1

/-- The body of the `setTimeout` callback scheduled in `trackAbuse`
(socketHandlers.js:119-123), run when a timer's TTL elapses. -/
def fireBlockTimeout (st : RLState) (t : BlockTimer) : RLState :=
  { st with blockedSockets := st.blockedSockets.filter (fun s => s ≠ t.socketId),
            blockedIPs := st.blockedIPs.filter (fun s => s ≠ t.ip),
            abuseCounter := jdel st.abuseCounter t.key,
            timers := st.timers.erase t }

/-- Source `isBlocked` (socketHandlers.js:133-135). -/
def isBlocked (st : RLState) (socketId ip : String) : Bool :=
  st.blockedSockets.contains socketId || st.blockedIPs.contains ip

/-- Source `checkRateLimit` (socketHandlers.js:58-90) with the configured window `W`
(`RATE_LIMIT_WINDOW`) and limit `N` (`RATE_LIMIT_MAX`).  First the
socket-keyed window, then the address-keyed window with limit `N * 3`; a
rejection on either calls `trackAbuse` and reports `false`. -/
def checkRateLimit (W N : Nat) (st : RLState) (socketId ip : String)
    (now : Nat) : Bool × RLState :=
  let afterSocket : Option RLState :=
    match jget st.messageRateLimiter socketId with
    | none =>
      some { st with messageRateLimiter := jset st.messageRateLimiter socketId { count := 1, windowStart := now } }
    | some userLimit =>
      if W < now - userLimit.windowStart then
        some { st with messageRateLimiter := jset st.messageRateLimiter socketId { count := 1, windowStart := now } }
      else if N ≤ userLimit.count then none
      else
        some { st with messageRateLimiter := jset st.messageRateLimiter socketId { count := userLimit.count + 1, windowStart := userLimit.windowStart } }
  match afterSocket with
  | none => (false, trackAbuse st socketId ip now)
  | some st1 =>
    match jget st1.socketRateLimiters ip with
    | none =>
      (true, { st1 with socketRateLimiters := jset st1.socketRateLimiters ip { count := 1, windowStart := now } })
    | some ipLimit =>
      if W < now - ipLimit.windowStart then
        (true, { st1 with socketRateLimiters := jset st1.socketRateLimiters ip { count := 1, windowStart := now } })
      else if N * 3 ≤ ipLimit.count then (false, trackAbuse st1 socketId ip now)
      else
        (true, { st1 with socketRateLimiters := jset st1.socketRateLimiters ip { count := ipLimit.count + 1, windowStart := ipLimit.windowStart } })

-- =========================================================================
-- Validation helpers injected from index.js
-- =========================================================================

/-- The control characters removed by `sanitizeInput` (index.js:261-268). -/
def isCtrlChar (c : Char) : Bool :=
  c.toNat ≤ 8 || c.toNat == 11 || c.toNat == 12 ||
  (14 ≤ c.toNat && c.toNat ≤ 31) || c.toNat == 127

/-- Source `sanitizeInput` (index.js:261-268): strip control characters, truncate to
`maxLength`, trim surrounding whitespace. -/
def sanitizeInput (input : String) (maxLength : Nat) : String :=
  jsTrim (((input.toList.filter (fun c => !isCtrlChar c)).take maxLength).asString)

/-- Character class of the session-code pattern `[A-Z0-9]`. -/
def isUpperAlnum (c : Char) : Bool :=
  ('A' ≤ c && c ≤ 'Z') || ('0' ≤ c && c ≤ '9')

/-- Source `isValidSessionCode` (index.js:271-274). -/
def isValidSessionCode (code : String) : Bool :=
  let u := jsToUpper code
  6 ≤ u.length && u.length ≤ 10 && u.toList.all isUpperAlnum

/-- Character class of the nickname pattern `[a-zA-Z0-9_\s]`. -/
def isNickChar (c : Char) : Bool :=
  c.isAlpha || c.isDigit || c == '_' || c == ' ' || c == '\t' ||
  c == '\n' || c == '\r'

/-- The nickname pattern `/^[a-zA-Z0-9_\s]{1,30}$/` used by the create/join
handlers (socketHandlers.js:205,264). -/
def validNickname (s : String) : Bool :=
  1 ≤ s.length && s.length ≤ 30 && s.toList.all isNickChar

/-- The nickname preprocessing shared by the create and join handlers
(socketHandlers.js:201-208, 261-267): sanitize, then fall back to `none`
(⇒ a generated nickname) when empty or failing the pattern. -/
def sanitizeNicknameField (rawNick : Option String) : Option String :=
  match rawNick with
  | none => none
  | some n =>
    let s := sanitizeInput n 30
    if s ≠ "" && validNickname s then some s else none

-- =========================================================================
-- Event handlers (socketHandlers.js:148-768)
-- =========================================================================

/-- Ack of the `create-session` handler (socketHandlers.js:213,223-229). -/
structure CreateAck where
  success : Bool
  error : Option String := none
  code : Option String := none
  nickname : Option String := none
  users : List User := []
  adminId : Option String := none
deriving DecidableEq, Repr

/-- The `create-session` handler (socketHandlers.js:189-234).  A blocked
socket gets no ack at all (`none`) and the state is untouched. -/
def createSessionHandler (rl : RLState) (sm : SMState) (socketId clientIP : String)
    (rawNick : Option String) (picks : List Nat) (genNick : String)
    (now : Nat) : Option CreateAck × SMState :=
  if isBlocked rl socketId clientIP then (none, sm)
  else
    let customNickname := sanitizeNicknameField rawNick
    if 1000 ≤ getActiveSessionCount sm then
      (some { success := false, error := some "Server is at capacity. Please try again later." }, sm)
    else
      let (r, sm') := createSession sm socketId customNickname picks genNick now
      (some { success := true, code := some r.code, nickname := some r.nickname,
              users := getUsers sm' r.code, adminId := some socketId }, sm')

/-- The raw `data` object of a `join-session` event; `code = none` models a
missing or falsy `data.code`. -/
structure JoinData where
  code : Option String := none
  nickname : Option String := none
deriving DecidableEq, Repr

/-- The `join-session` handler (socketHandlers.js:240-302).  A blocked socket
gets no ack (`none`).  A failed `joinSession` result is passed through to the
callback unchanged; a success is re-packaged with `code`, `users` and
`adminId`. -/
def joinSessionHandler (rl : RLState) (sm : SMState) (socketId clientIP : String)
    (data : Option JoinData) (genNick : String) (now : Nat) :
    Option JoinResult × SMState :=
  if isBlocked rl socketId clientIP then (none, sm)
  else
    match data with
    | none => (some { success := false, error := some "Session code required" }, sm)
    | some d =>
      match d.code with
      | none => (some { success := false, error := some "Session code required" }, sm)
      | some rawCode =>
        if rawCode = "" then
          (some { success := false, error := some "Session code required" }, sm)
        else
          let code := jsToUpper (sanitizeInput rawCode 10)
          if !isValidSessionCode code then
            (some { success := false, error := some "Invalid session code format" }, sm)
          else
            let customNickname := sanitizeNicknameField d.nickname
            let (result, sm') := joinSession sm code socketId customNickname
              (some clientIP) genNick now
            if result.success then
              (some { success := true, code := some (jsToUpper code),
                      nickname := result.nickname,
                      users := getUsers sm' (jsToUpper code),
                      adminId := (result.session.map (fun s => s.adminId)) },
               sm')
            else (some result, sm')

/-- Ack of the `kick-user` handler. -/
structure KickAck where
  success : Bool
  error : Option String := none
deriving DecidableEq, Repr

/-- The session-state effect of the `kick-user` handler
(socketHandlers.js:485-557).  `targetIP` is the resolved address of the
target's socket (`none` when the target socket is gone or has no address, in
which case no ban is written).  The handler mutates the session object
returned by `getSession`: it writes the ban record via `banUser` and then
deletes the target from `session.users`; both mutations are rendered here on
the same session and written back under the session's key. -/
def kickUser (st : SMState) (code requesterId targetUserId : String)
    (targetIP : Option String) (now : Nat) : KickAck × SMState :=
  match jget st.sessions (jsToUpper code) with
  | none => ({ success := false, error := some "Session not found" }, st)
  | some session =>
    if session.adminId ≠ requesterId then
      ({ success := false, error := some "Only admin can kick users" }, st)
    else if targetUserId = requesterId then
      ({ success := false, error := some "Cannot kick yourself" }, st)
    else
      match jget session.users targetUserId with
      | none => ({ success := false, error := some "User not found in session" }, st)
      | some targetUser =>
        let bannedUsers' :=
          match targetIP with
          | some ip =>
            jset session.bannedUsers ip
              { nickname := targetUser.nickname, bannedAt := now, reason := "Kicked by admin" }
          | none => session.bannedUsers
        let session' :=
          { session with bannedUsers := bannedUsers',
                         users := jdel session.users targetUserId }
        ({ success := true }, { sessions := jset st.sessions (jsToUpper code) session' })

/-- Payload of a relayed `new-message` broadcast (socketHandlers.js:401-413). -/
structure RelayedMessage where
  senderId : String
  senderNickname : String
  encryptedMessage : Option String
  iv : String
  messageId : String
  timestamp : Nat
  mediaType : String
  rawMediaData : Option String
  replyTo : Option String
deriving DecidableEq, Repr

/-- The raw `data` object of a `send-message` event (absent fields `none`). -/
structure MessageData where
  code : Option String := none
  encryptedMessage : Option String := none
  iv : Option String := none
  messageId : Option String := none
  timestamp : Nat := 0
  mediaType : Option String := none
  rawMediaData : Option String := none
  replyTo : Option String := none
deriving DecidableEq, Repr

/-- Observable outcome of the `send-message` handler. -/
inductive SendOutcome where
  /-- A silent `return`: the event is dropped with no reply. -/
  | dropped
  /-- A `rate-limited` notice sent back to the sender only. -/
  | rateLimited (retryAfter : Nat)
  /-- The `error` emit for a sender not in the claimed session. -/
  | errorNotInSession
  /-- Broadcast of the message to the room (everyone but the sender). -/
  | relayed (room : String) (msg : RelayedMessage)
deriving DecidableEq, Repr

/-- The `send-message` handler (socketHandlers.js:340-417), in source order:
block gate, payload-shape checks, rate limit, size ceiling, iv/messageId
checks, membership check, then relay + activity bump. -/
def sendMessageHandler (W N : Nat) (rl : RLState) (sm : SMState)
    (socketId clientIP : String) (data : Option MessageData) (now : Nat) :
    SendOutcome × RLState × SMState :=
  if isBlocked rl socketId clientIP then (.dropped, rl, sm)
  else
    match data with
    | none => (.dropped, rl, sm)
    | some d =>
      match d.code with
      | none => (.dropped, rl, sm)
      | some code =>
        if code = "" then (.dropped, rl, sm)
        else if !isValidSessionCode code then (.dropped, rl, sm)
        else
          let (ok, rl') := checkRateLimit W N rl socketId clientIP now
          if !ok then (.rateLimited ((W + 999) / 1000), rl', sm)
          else
            let totalSize := (d.encryptedMessage.map String.length).getD 0 +
              (d.rawMediaData.map String.length).getD 0
            if 30000000 < totalSize then (.dropped, rl', sm)
            else
              match d.iv with
              | none => (.dropped, rl', sm)
              | some iv =>
                if iv = "" || 100 < iv.length then (.dropped, rl', sm)
                else
                  match d.messageId with
                  | none => (.dropped, rl', sm)
                  | some mid =>
                    if mid = "" || 50 < mid.length then (.dropped, rl', sm)
                    else
                      match getSessionBySocketId sm socketId with
                      | none => (.errorNotInSession, rl', sm)
                      | some (scode, session) =>
                        if scode ≠ (jsToUpper code) then (.errorNotInSession, rl', sm)
                        else
                          match jget session.users socketId with
                          | none => (.dropped, rl', sm)
                          | some user =>
                            let sm' := updateActivity sm code now
                            (.relayed (jsToUpper code)
                              { senderId := socketId,
                                senderNickname := user.nickname,
                                encryptedMessage := d.encryptedMessage,
                                iv := iv, messageId := mid,
                                timestamp := d.timestamp,
                                mediaType :=
                                  match d.mediaType with
                                  | some m => if m = "" then "text" else m
                                  | none => "text",
                                rawMediaData :=
                                  match d.rawMediaData with
                                  | some r => if r = "" then none else some r
                                  | none => none,
                                replyTo := d.replyTo },
                             rl', sm')

/-- Payload of a `user-typing` broadcast (socketHandlers.js:433-437). -/
structure TypingBroadcast where
  room : String
  senderId : String
  nickname : String
  isTyping : Bool
deriving DecidableEq, Repr

/-- The `typing` handler (socketHandlers.js:422-441).  Note: unlike
`create-session` / `join-session` / `send-message`, this handler performs no
`isBlocked` gate - it does not consult the abuse-control state at all. -/
def typingHandler (sm : SMState) (socketId : String)
    (data : Option (String × Bool)) : Option TypingBroadcast :=
  match data with
  | none => none
  | some (code, isTyping) =>
    if code = "" then none
    else
      match getSessionBySocketId sm socketId with
      | none => none
      | some (_, session) =>
        match jget session.users socketId with
        | none => none
        | some user =>
          some { room := (jsToUpper code), senderId := socketId,
                 nickname := user.nickname, isTyping := isTyping }

/-- The combined server state touched by the `disconnect` handler. -/
structure FullState where
  rl : RLState
  sm : SMState
deriving DecidableEq, Repr

/-- The `disconnect` handler (socketHandlers.js:683-710): route the
connection through `removeUser`, then delete its `messageRateLimiter` entry.
Nothing else is touched - in particular neither `abuseCounter` nor
`socketRateLimiters` nor the blocked sets. -/
def disconnectHandler (st : FullState) (socketId : String) (now : Nat) :
    FullState :=
  let (_res, sm') := removeUser st.sm socketId now
  { rl := { st.rl with messageRateLimiter := jdel st.rl.messageRateLimiter socketId },
    sm := sm' }

/-- The `leave-session` handler (socketHandlers.js:748-767), session part:
it is exactly a `removeUser` call. -/
def leaveSessionHandler (sm : SMState) (socketId : String) (now : Nat) : SMState :=
  (removeUser sm socketId now).2

-- =========================================================================
-- Reachability: the operations that mutate the session registry
-- =========================================================================

/-- One mutating operation of the session registry, with arbitrary inputs:
every handler of socketHandlers.js changes `SessionManager` state only
through one of these.  (`createSessionHandler` calls `createSession`,
`join-session` calls `joinSession` with no detach beforehand,
`kick-user` performs `kickUser`, `disconnect` / `leave-session` call
`removeUser`, `unban-user` calls `unbanUser`, `share-public-key` calls
`storePublicKey`, `send-message` calls `updateActivity`, and the periodic
sweep calls `cleanupExpiredSessions`.) -/
inductive Step : SMState → SMState → Prop where
  | create (st : SMState) (creatorId : String) (nick : Option String)
      (picks : List Nat) (genNick : String) (now : Nat) :
      Step st (createSession st creatorId nick picks genNick now).2
  | join (st : SMState) (code socketId : String) (nick : Option String)
      (ip : Option String) (genNick : String) (now : Nat) :
      Step st (joinSession st code socketId nick ip genNick now).2
  | kick (st : SMState) (code requesterId targetId : String)
      (targetIP : Option String) (now : Nat) :
      Step st (kickUser st code requesterId targetId targetIP now).2
  | ban (st : SMState) (code : String) (ip : Option String) (nick : String)
      (now : Nat) : Step st (banUser st code ip nick now).2
  | unban (st : SMState) (code ip : String) :
      Step st (unbanUser st code ip).2
  | remove (st : SMState) (socketId : String) (now : Nat) :
      Step st (removeUser st socketId now).2
  | storeKey (st : SMState) (code socketId pk : String) :
      Step st (storePublicKey st code socketId pk)
  | touch (st : SMState) (code : String) (now : Nat) :
      Step st (updateActivity st code now)
  | cleanup (st : SMState) (now : Nat) :
      Step st (cleanupExpiredSessions st now)

/-- Registry states reachable from the empty registry. -/
def Reachable (st : SMState) : Prop :=
  Relation.ReflTransGen Step { sessions := [] } st

-- =========================================================================
-- Invariants
-- =========================================================================

/-- No duplicate keys - the defining property of a JS `Map`. -/
def keysNodup {K V : Type} (m : Jmap K V) : Prop := (m.map Prod.fst).Nodup

/-- Model well-formedness: every map in the registry has JS-`Map`-unique
keys. -/
def WFInv (st : SMState) : Prop :=
  keysNodup st.sessions ∧
  ∀ p ∈ st.sessions, keysNodup p.2.users ∧ keysNodup p.2.publicKeys ∧
    keysNodup p.2.bannedUsers

/-- The capacity invariant of the spec: every live session has at most
`MAX_USERS` members. -/
def SizeInv (st : SMState) : Prop :=
  ∀ p ∈ st.sessions, jsize p.2.users ≤ MAX_USERS

/-- The admin invariant of the spec: every live session's `adminId` is a
current member. -/
def AdminInv (st : SMState) : Prop :=
  ∀ p ∈ st.sessions, jhas p.2.users p.2.adminId = true

/-- The restricted operation set for the admin invariant: every operation of
`Step`, except that a `removeUser` is only taken when the removed connection
is not the admin of the session it is found in, or is its sole member (so
the session dies with it).  This is exactly the side-condition that the
counterexample to C2 forces. -/
inductive StepA : SMState → SMState → Prop where
  | create (st : SMState) (creatorId : String) (nick : Option String)
      (picks : List Nat) (genNick : String) (now : Nat) :
      StepA st (createSession st creatorId nick picks genNick now).2
  | join (st : SMState) (code socketId : String) (nick : Option String)
      (ip : Option String) (genNick : String) (now : Nat) :
      StepA st (joinSession st code socketId nick ip genNick now).2
  | kick (st : SMState) (code requesterId targetId : String)
      (targetIP : Option String) (now : Nat) :
      StepA st (kickUser st code requesterId targetId targetIP now).2
  | ban (st : SMState) (code : String) (ip : Option String) (nick : String)
      (now : Nat) : StepA st (banUser st code ip nick now).2
  | unban (st : SMState) (code ip : String) :
      StepA st (unbanUser st code ip).2
  | remove (st : SMState) (socketId : String) (now : Nat)
      (h : ∀ cs : String × Session, getSessionBySocketId st socketId = some cs →
        cs.2.adminId ≠ socketId ∨ jsize cs.2.users ≤ 1) :
      StepA st (removeUser st socketId now).2
  | storeKey (st : SMState) (code socketId pk : String) :
      StepA st (storePublicKey st code socketId pk)
  | touch (st : SMState) (code : String) (now : Nat) :
      StepA st (updateActivity st code now)
  | cleanup (st : SMState) (now : Nat) :
      StepA st (cleanupExpiredSessions st now)

/-- Reachability when no session's admin is ever removed while other members
remain. -/
def ReachableA (st : SMState) : Prop :=
  Relation.ReflTransGen StepA { sessions := [] } st

/-- At-most-one-membership: the spec's per-connection invariant that
`socketId` belongs to at most one live session (all sessions containing it
share one code). -/
def AtMostOneMembership (st : SMState) (socketId : String) : Prop :=
  ∀ p ∈ st.sessions, ∀ q ∈ st.sessions,
    jhas p.2.users socketId = true → jhas q.2.users socketId = true → p.1 = q.1

-- =========================================================================
-- Harness definitions for the rate-limiter claims
-- =========================================================================

/-- Run `checkRateLimit` for one key over a list of event times, recording
whether every event passed. -/
def runAll (W N : Nat) (st : RLState) (sid ip : String) (ts : List Nat) :
    Bool × RLState :=
  ts.foldl
    (fun acc t =>
      let r := checkRateLimit W N acc.2 sid ip t
      (acc.1 && r.1, r.2))
    (true, st)

/-- The limiter state after `k` passed events of one key whose window
started at `t0`. -/
def rlWindow (sid ip : String) (k t0 : Nat) : RLState :=
  { messageRateLimiter := [(sid, { count := k, windowStart := t0 })],
    socketRateLimiters := [(ip, { count := k, windowStart := t0 })] }

-- =========================================================================
-- Concrete scenario states
-- =========================================================================

/-- C1 scenario: the registry holding the session created by connection "B"
when every random pick was 0, i.e. with code "AAAAAAAA". -/
def collisionState : SMState :=
  (createSession { sessions := [] } "B" none (List.replicate 8 0) "NickB" 0).2

/-- C1 scenario: a later `createSession` by connection "A" for which the
random source draws all zeros again - the same code "AAAAAAAA". -/
def collisionResult : CreateResult × SMState :=
  createSession collisionState "A" none (List.replicate 8 0) "NickA" 5

/-- C9 scenario: a session at full capacity (64 members, keyed by the
strings "", "u", "uu", ...). -/
def fullUsers : Jmap String User :=
  (List.range 64).map (fun i =>
    (String.mk (List.replicate i 'u'),
     { id := String.mk (List.replicate i 'u'), nickname := "u",
       joinedAt := 0, isAdmin := i = 0 }))

/-- C9 scenario: the full session under code "FULLAAAA". -/
def fullSession : Session :=
  { code := "FULLAAAA", createdAt := 0, lastActivity := 0, adminId := "",
    users := fullUsers, publicKeys := [], bannedUsers := [] }

/-- C9 scenario: a registry holding the full session. -/
def fullState : SMState := { sessions := [("FULLAAAA", fullSession)] }

/-- C9 scenario: a freshly created one-member session (code "CCCCCCCC"). -/
def c9CreatedState : SMState :=
  (createSession { sessions := [] } "adm" none (List.replicate 8 2) "Nick" 0).2

/-- C2 scenario: connection "A" creates session "AAAAAAAA". -/
def c2State1 : SMState :=
  (createSession { sessions := [] } "A" none (List.replicate 8 0) "NickA" 0).2

/-- C2 scenario: connection "B" joins "AAAAAAAA". -/
def c2State2 : SMState :=
  (joinSession c2State1 "AAAAAAAA" "B" none none "NickB" 1).2

/-- C2 scenario: the admin "A" disconnects (`removeUser`), leaving "B". -/
def c2State3 : SMState := (removeUser c2State2 "A" 2).2

/-- C7 scenario: "A" creates session "DDDDDDDD" and "B" joins it. -/
def c7State : SMState :=
  (joinSession
    (createSession { sessions := [] } "A" none (List.replicate 8 3) "NA" 0).2
    "DDDDDDDD" "B" none none "NB" 1).2

/-- C7 scenario: the session stored under "DDDDDDDD" in `c7State`. -/
def c7Session : Session :=
  { code := "DDDDDDDD", createdAt := 0, lastActivity := 1, adminId := "A",
    users := [("A", { id := "A", nickname := "NA", joinedAt := 0,
                      isAdmin := true, clientIP := none }),
              ("B", { id := "B", nickname := "NB", joinedAt := 1,
                      isAdmin := false, clientIP := none })],
    publicKeys := [], bannedUsers := [] }

/-- C3 scenario: connection "A" creates session "AAAAAAAA". -/
def c3State1 : SMState :=
  (createSession { sessions := [] } "A" none (List.replicate 8 0) "NA" 0).2

/-- C3 scenario: connection "B" creates session "BBBBBBBB". -/
def c3State2 : SMState :=
  (createSession c3State1 "B" none (List.replicate 8 1) "NB" 1).2

/-- C3 scenario: connection "A", already a member of "AAAAAAAA", sends a
`join-session` event for "BBBBBBBB" through the handler. -/
def c3Handler : Option JoinResult × SMState :=
  joinSessionHandler {} c3State2 "A" "1.1.1.1"
    (some { code := some "BBBBBBBB" }) "GA" 2

/-- C3 scenario: the registry after that handler ran. -/
def c3State3 : SMState := c3Handler.2

/-- C8 scenario: "A" creates session "EEEEEEEE". -/
def c8State1 : SMState :=
  (createSession { sessions := [] } "A" none (List.replicate 8 4) "NA" 0).2

/-- C8 scenario: "B" joins from address 9.9.9.9 with nickname "Victim". -/
def c8State2 : SMState :=
  (joinSession c8State1 "EEEEEEEE" "B" none (some "9.9.9.9") "Victim" 1).2

/-- C8 scenario: the admin "A" kicks "B", banning address 9.9.9.9. -/
def c8State3 : SMState :=
  (kickUser c8State2 "EEEEEEEE" "A" "B" (some "9.9.9.9") 2).2

/-- C8 scenario: a fresh connection "B2" from the banned address sends
`join-session` through the handler. -/
def c8Handler : Option JoinResult × SMState :=
  joinSessionHandler {} c8State3 "B2" "9.9.9.9"
    (some { code := some "EEEEEEEE" }) "G" 3

/-- C8 scenario: the session stored under "EEEEEEEE" in `c8State3`. -/
def c8Session : Session :=
  { code := "EEEEEEEE", createdAt := 0, lastActivity := 1, adminId := "A",
    users := [("A", { id := "A", nickname := "NA", joinedAt := 0,
                      isAdmin := true, clientIP := none })],
    publicKeys := [],
    bannedUsers := [("9.9.9.9", { nickname := "Victim", bannedAt := 2,
                                  reason := "Kicked by admin" })] }

/-- C4 scenario: "K" creates session "FFFFFFFF". -/
def c4Base : SMState :=
  (createSession { sessions := [] } "K" none (List.replicate 8 5) "NK" 0).2

/-- C4 scenario: `n` further connections ("j", "jj", ...) join "FFFFFFFF"
from distinct addresses ("p", "pp", ...). -/
def addJoins (st : SMState) (n : Nat) : SMState :=
  (List.range n).foldl
    (fun s i =>
      (joinSession s "FFFFFFFF" (String.mk (List.replicate (i + 1) 'j')) none
        (some (String.mk (List.replicate (i + 1) 'p'))) "NJ" 0).2) st

/-- C4 scenario: "FFFFFFFF" at full capacity (64 members). -/
def c4Full : SMState := addJoins c4Base 63

/-- C4 scenario: the admin kicks "j", banning address "p" (63 members). -/
def c4Kicked : SMState := (kickUser c4Full "FFFFFFFF" "K" "j" (some "p") 1).2

/-- C4 scenario: the session stored in `c4Kicked` (fetched from the state,
with a default that never applies). -/
def c4KickedSession : Session :=
  (jget c4Kicked.sessions (jsToUpper "FFFFFFFF")).getD
    { code := "", createdAt := 0, lastActivity := 0, adminId := "",
      users := [], publicKeys := [], bannedUsers := [] }

/-- C4 scenario: a further join refills the session to 64 members, the ban
on "p" still in place. -/
def c4Refull : SMState :=
  (joinSession c4Kicked "FFFFFFFF" "late" none (some "9.9.9.9") "NL" 2).2

/-- C6 scenario: the abuse-control state after 50 rate-limit violations by
socket "s1" from address "ip1" inside one abuse window. -/
def c6Blocked : RLState :=
  (List.range 50).foldl (fun s _ => trackAbuse s "s1" "ip1" 0) {}

/-- C6 scenario: a registry where the blocked connection "s1" is a member
of session "GGGGGGGG". -/
def c6Sm : SMState :=
  (createSession { sessions := [] } "s1" none (List.replicate 8 6) "N6" 0).2

/-- C10 scenario: abuse-control state with three abuse-counter hits and one
passed rate-limit event for connection "s1" at address "ip1". -/
def c10Rl : RLState :=
  (checkRateLimit 1000 5
    ((List.range 3).foldl (fun s _ => trackAbuse s "s1" "ip1" 0) {})
    "s1" "ip1" 0).2

/-- C10 scenario: the combined state before "s1" disconnects. -/
def c10Full : FullState :=
  { rl := c10Rl,
    sm := (createSession { sessions := [] } "s1" none (List.replicate 8 7)
      "N7" 0).2 }

/-- C10 scenario: the combined state after the disconnect handler ran. -/
def c10After : FullState := disconnectHandler c10Full "s1" 9

-- =========================================================================
-- (end of definitions; concrete scenario states are added below, theorems
-- after them)
-- =========================================================================

-- =========================================================================
-- Lemmas about the JS-Map model
-- =========================================================================

section JmapLemmas

variable {K V : Type} [BEq K]

theorem jhas_eq_isSome (m : Jmap K V) (k : K) : jhas m k = (jget m k).isSome := by
  induction m with
  | nil => rfl
  | cons q m ih =>
    unfold jhas jget
    cases hq : (q.1 == k) with
    | true => rfl
    | false => simpa using ih

theorem jget_jset_self [LawfulBEq K] (m : Jmap K V) (k : K) (v : V) :
    jget (jset m k v) k = some v := by
  induction m with
  | nil => simp [jget, jset]
  | cons q m ih =>
    unfold jset
    cases hq : (q.1 == k) with
    | true => simp [jget, beq_self_eq_true]
    | false => simpa [jget, hq] using ih

theorem jget_jset_ne [LawfulBEq K] (m : Jmap K V) (k k' : K) (v : V)
    (hne : k' ≠ k) : jget (jset m k v) k' = jget m k' := by
  have hkk : (k == k') = false := beq_eq_false_iff_ne.mpr (fun hc => hne hc.symm)
  induction m with
  | nil => simp [jget, jset, hkk]
  | cons q m ih =>
    unfold jset
    cases hq : (q.1 == k) with
    | true =>
      have hqk' : (q.1 == k') = false := by
        rw [eq_of_beq hq]; exact hkk
      simp [jget, hkk, hqk']
    | false => simp [jget, ih]

theorem jhas_jset_self [LawfulBEq K] (m : Jmap K V) (k : K) (v : V) :
    jhas (jset m k v) k = true := by
  rw [jhas_eq_isSome, jget_jset_self]
  rfl

theorem jhas_jset_ne [LawfulBEq K] (m : Jmap K V) (k k' : K) (v : V)
    (hne : k' ≠ k) : jhas (jset m k v) k' = jhas m k' := by
  rw [jhas_eq_isSome, jhas_eq_isSome, jget_jset_ne m k k' v hne]

theorem jhas_jset_of [LawfulBEq K] (m : Jmap K V) (k a : K) (v : V)
    (h : jhas m a = true) : jhas (jset m k v) a = true := by
  by_cases hak : a = k
  · subst hak; exact jhas_jset_self m a v
  · rw [jhas_jset_ne m k a v hak]; exact h

theorem jget_jdel_self [LawfulBEq K] (m : Jmap K V) (k : K) :
    jget (jdel m k) k = none := by
  induction m with
  | nil => rfl
  | cons q m ih =>
    unfold jdel
    cases hq : (q.1 == k) with
    | true => exact ih
    | false => simpa [jget, hq] using ih

theorem jhas_jdel_self [LawfulBEq K] (m : Jmap K V) (k : K) :
    jhas (jdel m k) k = false := by
  rw [jhas_eq_isSome, jget_jdel_self]
  rfl

theorem jget_jdel_ne [LawfulBEq K] (m : Jmap K V) (k a : K) (hne : a ≠ k) :
    jget (jdel m k) a = jget m a := by
  induction m with
  | nil => rfl
  | cons q m ih =>
    unfold jdel
    cases hq : (q.1 == k) with
    | true =>
      have hqa : (q.1 == a) = false := by
        rw [eq_of_beq hq]
        exact beq_eq_false_iff_ne.mpr (fun hc => hne hc.symm)
      simp [jget, hqa, ih]
    | false => simp [jget, ih]

theorem jhas_jdel_ne [LawfulBEq K] (m : Jmap K V) (k a : K) (hne : a ≠ k) :
    jhas (jdel m k) a = jhas m a := by
  rw [jhas_eq_isSome, jhas_eq_isSome, jget_jdel_ne m k a hne]

theorem jget_mem [LawfulBEq K] (m : Jmap K V) (k : K) (v : V)
    (h : jget m k = some v) : (k, v) ∈ m := by
  induction m with
  | nil => cases h
  | cons q m ih =>
    unfold jget at h
    by_cases hq : (q.1 == k) = true
    · rw [if_pos hq] at h
      have h1 : q.1 = k := eq_of_beq hq
      have h2 : q.2 = v := Option.some.inj h
      have hqkv : q = (k, v) := by
        calc q = (q.1, q.2) := rfl
          _ = (k, v) := by rw [h1, h2]
      exact hqkv ▸ List.mem_cons_self q m
    · rw [if_neg hq] at h
      exact List.mem_cons_of_mem q (ih h)

theorem jhas_of_mem [LawfulBEq K] (m : Jmap K V) (p : K × V) (h : p ∈ m) :
    jhas m p.1 = true := by
  induction m with
  | nil => cases h
  | cons q m ih =>
    unfold jhas
    rcases List.mem_cons.mp h with hq | hm
    · subst hq
      rw [beq_self_eq_true]
      rfl
    · rw [ih hm, Bool.or_true]

theorem mem_jset (m : Jmap K V) (k : K) (v : V) (p : K × V)
    (h : p ∈ jset m k v) : p = (k, v) ∨ p ∈ m := by
  induction m with
  | nil =>
    left
    unfold jset at h
    exact List.mem_singleton.mp h
  | cons q m ih =>
    unfold jset at h
    by_cases hq : (q.1 == k) = true
    · rw [if_pos hq] at h
      rcases List.mem_cons.mp h with hkv | hm
      · left; exact hkv
      · right; exact List.mem_cons_of_mem q hm
    · rw [if_neg hq] at h
      rcases List.mem_cons.mp h with hkv | hm
      · right; exact hkv ▸ List.mem_cons_self q m
      · rcases ih hm with h' | h'
        · left; exact h'
        · right; exact List.mem_cons_of_mem q h'

theorem mem_jdel (m : Jmap K V) (k : K) (p : K × V) (h : p ∈ jdel m k) :
    p ∈ m := by
  induction m with
  | nil => cases h
  | cons q m ih =>
    unfold jdel at h
    by_cases hq : (q.1 == k) = true
    · rw [if_pos hq] at h
      exact List.mem_cons_of_mem q (ih h)
    · rw [if_neg hq] at h
      rcases List.mem_cons.mp h with h' | h'
      · exact h' ▸ List.mem_cons_self q m
      · exact List.mem_cons_of_mem q (ih h')

theorem jsize_jset_le (m : Jmap K V) (k : K) (v : V) :
    jsize (jset m k v) ≤ jsize m + 1 := by
  induction m with
  | nil => simp [jsize, jset]
  | cons q m ih =>
    unfold jset
    by_cases hq : (q.1 == k) = true
    · rw [if_pos hq]
      unfold jsize
      simp
    · rw [if_neg hq]
      unfold jsize at ih ⊢
      simpa using ih

theorem jsize_jdel_le (m : Jmap K V) (k : K) :
    jsize (jdel m k) ≤ jsize m := by
  induction m with
  | nil => exact Nat.le_refl 0
  | cons q m ih =>
    unfold jdel
    by_cases hq : (q.1 == k) = true
    · rw [if_pos hq]
      unfold jsize at ih ⊢
      exact Nat.le_succ_of_le ih
    · rw [if_neg hq]
      unfold jsize at ih ⊢
      simpa using ih

theorem jdel_of_not_has (m : Jmap K V) (k : K) (h : jhas m k = false) :
    jdel m k = m := by
  induction m with
  | nil => rfl
  | cons q m ih =>
    unfold jhas at h
    rw [Bool.or_eq_false_iff] at h
    unfold jdel
    rw [if_neg (by rw [h.1]; exact Bool.false_ne_true), ih h.2]

theorem jsize_jdel_of_nodup [LawfulBEq K] (m : Jmap K V) (k : K)
    (hnd : keysNodup m) (h : jhas m k = true) :
    jsize m = jsize (jdel m k) + 1 := by
  induction m with
  | nil => cases h
  | cons q m ih =>
    unfold keysNodup at hnd
    rw [List.map_cons, List.nodup_cons] at hnd
    unfold jdel
    by_cases hq : (q.1 == k) = true
    · rw [if_pos hq]
      have hnk : jhas m k = false := by
        rw [jhas_eq_isSome]
        cases hget : jget m k with
        | none => rfl
        | some v =>
          exact absurd (List.mem_map_of_mem Prod.fst (jget_mem m k v hget))
            (eq_of_beq hq ▸ hnd.1)
      rw [jdel_of_not_has m k hnk]
      rfl
    · rw [if_neg hq]
      have hm : jhas m k = true := by
        unfold jhas at h
        rcases Bool.or_eq_true_iff.mp h with h' | h'
        · exact absurd h' hq
        · exact h'
      have hrec := ih hnd.2 hm
      unfold jsize at hrec ⊢
      rw [List.length_cons, List.length_cons, hrec]

theorem keysNodup_jset [LawfulBEq K] (m : Jmap K V) (k : K) (v : V)
    (hnd : keysNodup m) : keysNodup (jset m k v) := by
  induction m with
  | nil => exact List.nodup_singleton k
  | cons q m ih =>
    unfold keysNodup at hnd ⊢
    rw [List.map_cons, List.nodup_cons] at hnd
    unfold jset
    by_cases hq : (q.1 == k) = true
    · rw [if_pos hq, List.map_cons, List.nodup_cons]
      exact ⟨eq_of_beq hq ▸ hnd.1, hnd.2⟩
    · rw [if_neg hq, List.map_cons, List.nodup_cons]
      constructor
      · intro hc
        rw [List.mem_map] at hc
        obtain ⟨p, hp, hpq⟩ := hc
        rcases mem_jset m k v p hp with h' | h'
        · rw [h'] at hpq
          exact hq (hpq ▸ beq_self_eq_true q.1)
        · exact hnd.1 (hpq ▸ List.mem_map_of_mem Prod.fst h')
      · exact ih hnd.2

theorem keysNodup_jdel (m : Jmap K V) (k : K) (hnd : keysNodup m) :
    keysNodup (jdel m k) := by
  induction m with
  | nil => exact List.nodup_nil
  | cons q m ih =>
    unfold keysNodup at hnd ⊢
    rw [List.map_cons, List.nodup_cons] at hnd
    unfold jdel
    by_cases hq : (q.1 == k) = true
    · rw [if_pos hq]
      exact ih hnd.2
    · rw [if_neg hq, List.map_cons, List.nodup_cons]
      constructor
      · intro hc
        rw [List.mem_map] at hc
        obtain ⟨p, hp, hpq⟩ := hc
        exact hnd.1 (hpq ▸ List.mem_map_of_mem Prod.fst (mem_jdel m k p hp))
      · exact ih hnd.2

theorem mem_jdel_key (m : Jmap K V) (k : K) (p : K × V) (h : p ∈ jdel m k) :
    p ∈ m ∧ (p.1 == k) = false := by
  induction m with
  | nil => cases h
  | cons q m ih =>
    unfold jdel at h
    by_cases hq : (q.1 == k) = true
    · rw [if_pos hq] at h
      have := ih h
      exact ⟨List.mem_cons_of_mem q this.1, this.2⟩
    · rw [if_neg hq] at h
      rcases List.mem_cons.mp h with h' | h'
      · subst h'
        refine ⟨List.mem_cons_self p m, ?_⟩
        cases hc : (p.1 == k) with
        | true => exact absurd hc hq
        | false => rfl
      · have := ih h'
        exact ⟨List.mem_cons_of_mem q this.1, this.2⟩

theorem mem_jset_nodup [LawfulBEq K] (m : Jmap K V) (k : K) (v : V)
    (hnd : keysNodup m) (p : K × V) (h : p ∈ jset m k v) :
    p = (k, v) ∨ (p ∈ m ∧ (p.1 == k) = false) := by
  induction m with
  | nil =>
    left
    unfold jset at h
    exact List.mem_singleton.mp h
  | cons q m ih =>
    unfold keysNodup at hnd
    rw [List.map_cons, List.nodup_cons] at hnd
    unfold jset at h
    by_cases hq : (q.1 == k) = true
    · rw [if_pos hq] at h
      rcases List.mem_cons.mp h with h' | h'
      · left; exact h'
      · right
        refine ⟨List.mem_cons_of_mem q h', ?_⟩
        cases hc : (p.1 == k) with
        | false => rfl
        | true =>
          exfalso
          have hpq : p.1 = q.1 := (eq_of_beq hc).trans (eq_of_beq hq).symm
          exact hnd.1 (hpq ▸ List.mem_map_of_mem Prod.fst h')
    · rw [if_neg hq] at h
      rcases List.mem_cons.mp h with h' | h'
      · right
        subst h'
        refine ⟨List.mem_cons_self p m, ?_⟩
        cases hc : (p.1 == k) with
        | true => exact absurd hc hq
        | false => rfl
      · rcases ih hnd.2 h' with h'' | h''
        · left; exact h''
        · right; exact ⟨List.mem_cons_of_mem q h''.1, h''.2⟩

theorem jsAdd_contains [LawfulBEq K] (l : List K) (x : K) :
    (jsAdd l x).contains x = true := by
  unfold jsAdd
  split
  · assumption
  · simp

theorem filter_ne_not_contains [LawfulBEq K] [DecidableEq K] (l : List K)
    (x : K) : (l.filter (fun s => s ≠ x)).contains x = false := by
  simp

end JmapLemmas

theorem keysNodup_nil {K V : Type} : keysNodup ([] : Jmap K V) := List.nodup_nil

theorem keysNodup_filter {K V : Type} (m : Jmap K V) (f : K × V → Bool)
    (hnd : keysNodup m) : keysNodup (m.filter f) :=
  List.Nodup.sublist (List.Sublist.map Prod.fst (List.filter_sublist m)) hnd

theorem jsize_filter_le {K V : Type} (m : Jmap K V) (f : K × V → Bool) :
    jsize (m.filter f) ≤ jsize m := List.length_filter_le _ _

-- =========================================================================
-- Rate-limiter lemmas (claim C5)
-- =========================================================================

theorem checkRateLimit_first (W N : Nat) (sid ip : String) (t0 : Nat) :
    checkRateLimit W N {} sid ip t0 = (true, rlWindow sid ip 1 t0) := rfl

theorem checkRateLimit_mid (W N : Nat) (sid ip : String) (k t0 t : Nat)
    (hkN : k < N) (ht : t - t0 ≤ W) :
    checkRateLimit W N (rlWindow sid ip k t0) sid ip t =
      (true, rlWindow sid ip (k + 1) t0) := by
  have hW : ¬ (W < t - t0) := Nat.not_lt.mpr ht
  have hNk : ¬ (N ≤ k) := Nat.not_le.mpr hkN
  have hN3 : ¬ (N * 3 ≤ k) := by omega
  simp only [checkRateLimit, rlWindow, jget, jset, beq_self_eq_true, if_true,
    if_neg hW, if_neg hNk, if_neg hN3]

theorem checkRateLimit_reject (W N : Nat) (sid ip : String) (t0 t : Nat)
    (ht : t - t0 ≤ W) :
    (checkRateLimit W N (rlWindow sid ip N t0) sid ip t).1 = false := by
  have hW : ¬ (W < t - t0) := Nat.not_lt.mpr ht
  simp only [checkRateLimit, rlWindow, jget, beq_self_eq_true, if_true,
    if_neg hW, if_pos (Nat.le_refl N)]

theorem checkRateLimit_reset (W N : Nat) (sid ip : String) (k t0 t : Nat)
    (ht : W < t - t0) :
    checkRateLimit W N (rlWindow sid ip k t0) sid ip t =
      (true, rlWindow sid ip 1 t) := by
  simp only [checkRateLimit, rlWindow, jget, jset, beq_self_eq_true, if_true,
    if_pos ht]

theorem runAll_window (W N : Nat) (sid ip : String) (t0 : Nat) :
    ∀ (ts : List Nat) (k : Nat), k + ts.length ≤ N →
      (∀ t ∈ ts, t - t0 ≤ W) →
      runAll W N (rlWindow sid ip k t0) sid ip ts =
        (true, rlWindow sid ip (k + ts.length) t0) := by
  intro ts
  induction ts with
  | nil => intro k _ _; rfl
  | cons t ts ih =>
    intro k hk hin
    have hkN : k < N := by
      have := hk
      rw [List.length_cons] at this
      omega
    have hstep := checkRateLimit_mid W N sid ip k t0 t hkN
      (hin t (List.mem_cons_self t ts))
    unfold runAll at ih ⊢
    rw [List.foldl_cons]
    simp only [hstep, Bool.and_true]
    have hrec := ih (k + 1) (by rw [List.length_cons] at hk; omega)
      (fun u hu => hin u (List.mem_cons_of_mem t hu))
    rw [hrec, List.length_cons]
    congr 2
    omega

/-- C5: for `checkRateLimit` with window `W` ms and limit `N` (the
configuration guarantees `N ≥ 1`), starting from the empty limiter state:
the first event of a key opens a window at its arrival time `t0`; all `N`
events whose times stay within `W` ms of `t0` pass the check; the
`(N+1)`-th event still within the window is rejected; and an event arriving
once `W` ms have elapsed since `t0` (strictly more than `W`, as the source's
`now - windowStart > RATE_LIMIT_WINDOW` demands) resets the counter and
passes with a fresh window. -/
theorem C5_rate_limiter_exact_window (W N : Nat) (sid ip : String)
    (t0 : Nat) (ts : List Nat) (hlen : ts.length + 1 = N)
    (hin : ∀ t ∈ ts, t - t0 ≤ W) (tN tR : Nat) (htN : tN - t0 ≤ W)
    (htR : W < tR - t0) :
    runAll W N {} sid ip (t0 :: ts) = (true, rlWindow sid ip N t0) ∧
    (checkRateLimit W N (rlWindow sid ip N t0) sid ip tN).1 = false ∧
    checkRateLimit W N (rlWindow sid ip N t0) sid ip tR =
      (true, rlWindow sid ip 1 tR) := by
  refine ⟨?_, checkRateLimit_reject W N sid ip t0 tN htN,
    checkRateLimit_reset W N sid ip N t0 tR htR⟩
  have h1 := runAll_window W N sid ip t0 ts 1 (by omega) hin
  rw [show 1 + ts.length = N from by omega] at h1
  unfold runAll at h1 ⊢
  rw [List.foldl_cons]
  simp only [checkRateLimit_first W N sid ip t0, Bool.and_true]
  exact h1

/-- Witness for C5 at `W = 1000`, `N = 5`: five events at times
0,100,200,300,400 all pass, a sixth at 500 is rejected, an event at 2000
passes with a fresh window. -/
theorem C5_rate_limiter_exact_window_witness :
    runAll 1000 5 {} "s" "i" [0, 100, 200, 300, 400] =
      (true, rlWindow "s" "i" 5 0) ∧
    (checkRateLimit 1000 5 (rlWindow "s" "i" 5 0) "s" "i" 500).1 = false ∧
    checkRateLimit 1000 5 (rlWindow "s" "i" 5 0) "s" "i" 2000 =
      (true, rlWindow "s" "i" 1 2000) :=
  C5_rate_limiter_exact_window 1000 5 "s" "i" 0 [100, 200, 300, 400]
    (by decide) (by decide) 500 2000 (by decide) (by decide)

-- =========================================================================
-- Capacity invariant (claim C9)
-- =========================================================================

theorem sizeInv_set (st : SMState) (key : String) (s' : Session)
    (hle : jsize s'.users ≤ MAX_USERS) (hInv : SizeInv st) :
    SizeInv { sessions := jset st.sessions key s' } := by
  intro p hp
  rcases mem_jset st.sessions key s' p hp with h | h
  · rw [h]; exact hle
  · exact hInv p h

theorem sizeInv_step {s t : SMState} (h : Step s t) (hInv : SizeInv s) :
    SizeInv t := by
  cases h with
  | create c nick picks g now =>
    unfold createSession
    apply sizeInv_set
    · show (1 : Nat) ≤ MAX_USERS
      decide
    · exact hInv
  | join code sid nick ip g now =>
    unfold joinSession
    split
    · exact hInv
    · rename_i session hget
      split
      · exact hInv
      · rename_i hfull
        have hle : jsize (jset session.users sid
            { id := sid, nickname := (nick.getD g), joinedAt := now,
              isAdmin := false, clientIP := ip }) ≤ MAX_USERS := by
          have h1 := jsize_jset_le session.users sid
            { id := sid, nickname := (nick.getD g), joinedAt := now,
              isAdmin := false, clientIP := ip }
          omega
        cases ip with
        | some a =>
          cases hb : jget session.bannedUsers a with
          | some banInfo => simp only [hb]; exact hInv
          | none =>
            simp only [hb]
            exact sizeInv_set s (jsToUpper code) _ hle hInv
        | none => exact sizeInv_set s (jsToUpper code) _ hle hInv
  | kick code rq tg tIP now =>
    unfold kickUser
    split
    · exact hInv
    · rename_i session hget
      split
      · exact hInv
      · split
        · exact hInv
        · split
          · exact hInv
          · rename_i targetUser hu
            apply sizeInv_set
            · calc jsize (jdel session.users tg) ≤ jsize session.users :=
                    jsize_jdel_le session.users tg
                _ ≤ MAX_USERS := hInv ((jsToUpper code), session)
                    (jget_mem s.sessions (jsToUpper code) session hget)
            · exact hInv
  | ban code ip nick now =>
    unfold banUser
    split
    · rename_i session a hget
      apply sizeInv_set
      · exact hInv ((jsToUpper code), session)
          (jget_mem s.sessions (jsToUpper code) session hget)
      · exact hInv
    · exact hInv
  | unban code ip =>
    unfold unbanUser
    split
    · rename_i session hget
      apply sizeInv_set
      · exact hInv ((jsToUpper code), session)
          (jget_mem s.sessions (jsToUpper code) session hget)
      · exact hInv
    · exact hInv
  | remove sid now =>
    unfold removeUser
    split
    · exact hInv
    · rename_i code session hfind
      unfold getSessionBySocketId at hfind
      have hmem : (code, session) ∈ s.sessions :=
        List.mem_of_find?_eq_some hfind
      split
      · intro p hp
        exact hInv p (mem_jdel s.sessions code p hp)
      · apply sizeInv_set
        · calc jsize (jdel session.users sid) ≤ jsize session.users :=
                jsize_jdel_le session.users sid
            _ ≤ MAX_USERS := hInv (code, session) hmem
        · exact hInv
  | storeKey code sid pk =>
    unfold storePublicKey
    split
    · rename_i session hget
      apply sizeInv_set
      · exact hInv ((jsToUpper code), session)
          (jget_mem s.sessions (jsToUpper code) session hget)
      · exact hInv
    · exact hInv
  | touch code now =>
    unfold updateActivity
    split
    · rename_i session hget
      apply sizeInv_set
      · exact hInv ((jsToUpper code), session)
          (jget_mem s.sessions (jsToUpper code) session hget)
      · exact hInv
    · exact hInv
  | cleanup now =>
    intro p hp
    exact hInv p (List.mem_of_mem_filter hp)

theorem sizeInv_reachable {st : SMState} (h : Reachable st) : SizeInv st := by
  unfold Reachable at h
  induction h with
  | refl => intro p hp; cases hp
  | tail _ hstep ih => exact sizeInv_step hstep ih

/-- C9: in every reachable registry state, every live session has at most
`MAX_USERS = 64` members (and trivially at least 0); moreover `joinSession`
rejects with the SessionFull error, leaving the state unchanged, whenever
the target session already has at least 64 members - so no operation grows
a session past 64. -/
theorem C9_member_capacity :
    (∀ st, Reachable st → SizeInv st) ∧
    (∀ st code socketId nick ip genNick now session,
      getSession st code = some session →
      MAX_USERS ≤ jsize session.users →
      joinSession st code socketId nick ip genNick now =
        ({ success := false, error := some "Session is full (max 64 users)" }, st)) := by
  constructor
  · intro st h
    exact sizeInv_reachable h
  · intro st code socketId nick ip genNick now session hget hfull
    unfold getSession at hget
    unfold joinSession
    rw [hget]
    simp only [if_pos hfull]

/-- Witness for C9: the capacity invariant holds at the concrete reachable
one-session state, and a join against the concrete 64-member session is
rejected as full. -/
theorem C9_member_capacity_witness :
    SizeInv c9CreatedState ∧
    joinSession fullState "FULLAAAA" "newguy" none none "g" 0 =
      ({ success := false, error := some "Session is full (max 64 users)" },
       fullState) :=
  ⟨C9_member_capacity.1 c9CreatedState
    (Relation.ReflTransGen.single
      (Step.create { sessions := [] } "adm" none (List.replicate 8 2) "Nick" 0)),
   C9_member_capacity.2 fullState "FULLAAAA" "newguy" none none "g" 0
    fullSession (by decide) (by decide)⟩

-- =========================================================================
-- Claim C1: no collision retry in createSession (code bug)
-- =========================================================================

/-- C1 (refuting evaluation): `generateSessionCode` never consults the
registry, and `createSession`, invoked on a registry whose live session
"AAAAAAAA" (created by connection "B") collides with the freshly drawn
code, accepts the drawn code anyway: the new session replaces the live one,
so the claimed retry-on-collision does not exist and "B"'s session is
silently destroyed. -/
theorem C1_createSession_accepts_colliding_code :
    generateSessionCode (List.replicate 8 0) = "AAAAAAAA" ∧
    Reachable collisionState ∧
    (∃ s, jget collisionState.sessions "AAAAAAAA" = some s ∧
      jhas s.users "B" = true) ∧
    collisionResult.1.code = "AAAAAAAA" ∧
    (∃ s', jget collisionResult.2.sessions "AAAAAAAA" = some s' ∧
      s'.adminId = "A" ∧ jhas s'.users "B" = false) := by
  refine ⟨by decide, ?_, ⟨_, rfl, by decide⟩, by decide, ⟨_, rfl, by decide, by decide⟩⟩
  exact Relation.ReflTransGen.single
    (Step.create { sessions := [] } "B" none (List.replicate 8 0) "NickB" 0)

-- =========================================================================
-- Well-formedness of all reachable states: JS-Map key uniqueness
-- =========================================================================

theorem wfInv_set (st : SMState) (key : String) (s' : Session)
    (h1 : keysNodup s'.users) (h2 : keysNodup s'.publicKeys)
    (h3 : keysNodup s'.bannedUsers) (hInv : WFInv st) :
    WFInv { sessions := jset st.sessions key s' } := by
  constructor
  · exact keysNodup_jset st.sessions key s' hInv.1
  · intro p hp
    rcases mem_jset st.sessions key s' p hp with h | h
    · rw [h]; exact ⟨h1, h2, h3⟩
    · exact hInv.2 p h

theorem wfInv_step {s t : SMState} (h : Step s t) (hInv : WFInv s) :
    WFInv t := by
  cases h with
  | create c nick picks g now =>
    unfold createSession
    apply wfInv_set
    · exact List.nodup_singleton c
    · exact keysNodup_nil
    · exact keysNodup_nil
    · exact hInv
  | join code sid nick ip g now =>
    unfold joinSession
    split
    · exact hInv
    · rename_i session hget
      have hmem := hInv.2 ((jsToUpper code), session)
        (jget_mem s.sessions (jsToUpper code) session hget)
      split
      · exact hInv
      · rename_i hfull
        cases ip with
        | some a =>
          cases hb : jget session.bannedUsers a with
          | some banInfo => simp only [hb]; exact hInv
          | none =>
            simp only [hb]
            apply wfInv_set
            · exact keysNodup_jset session.users sid _ hmem.1
            · exact hmem.2.1
            · exact hmem.2.2
            · exact hInv
        | none =>
          apply wfInv_set
          · exact keysNodup_jset session.users sid _ hmem.1
          · exact hmem.2.1
          · exact hmem.2.2
          · exact hInv
  | kick code rq tg tIP now =>
    unfold kickUser
    split
    · exact hInv
    · rename_i session hget
      have hmem := hInv.2 ((jsToUpper code), session)
        (jget_mem s.sessions (jsToUpper code) session hget)
      split
      · exact hInv
      · split
        · exact hInv
        · split
          · exact hInv
          · rename_i targetUser hu
            apply wfInv_set
            · exact keysNodup_jdel session.users tg hmem.1
            · exact hmem.2.1
            · cases tIP with
              | some a => exact keysNodup_jset session.bannedUsers a _ hmem.2.2
              | none => exact hmem.2.2
            · exact hInv
  | ban code ip nick now =>
    unfold banUser
    split
    · rename_i session a hget
      have hmem := hInv.2 ((jsToUpper code), session)
        (jget_mem s.sessions (jsToUpper code) session hget)
      apply wfInv_set
      · exact hmem.1
      · exact hmem.2.1
      · exact keysNodup_jset session.bannedUsers a _ hmem.2.2
      · exact hInv
    · exact hInv
  | unban code ip =>
    unfold unbanUser
    split
    · rename_i session hget
      have hmem := hInv.2 ((jsToUpper code), session)
        (jget_mem s.sessions (jsToUpper code) session hget)
      apply wfInv_set
      · exact hmem.1
      · exact hmem.2.1
      · exact keysNodup_jdel session.bannedUsers ip hmem.2.2
      · exact hInv
    · exact hInv
  | remove sid now =>
    unfold removeUser
    split
    · exact hInv
    · rename_i code session hfind
      unfold getSessionBySocketId at hfind
      have hmem := hInv.2 (code, session) (List.mem_of_find?_eq_some hfind)
      split
      · constructor
        · exact keysNodup_jdel s.sessions code hInv.1
        · intro p hp
          exact hInv.2 p (mem_jdel s.sessions code p hp)
      · apply wfInv_set
        · exact keysNodup_jdel session.users sid hmem.1
        · exact keysNodup_jdel session.publicKeys sid hmem.2.1
        · exact hmem.2.2
        · exact hInv
  | storeKey code sid pk =>
    unfold storePublicKey
    split
    · rename_i session hget
      have hmem := hInv.2 ((jsToUpper code), session)
        (jget_mem s.sessions (jsToUpper code) session hget)
      apply wfInv_set
      · exact hmem.1
      · exact keysNodup_jset session.publicKeys sid pk hmem.2.1
      · exact hmem.2.2
      · exact hInv
    · exact hInv
  | touch code now =>
    unfold updateActivity
    split
    · rename_i session hget
      have hmem := hInv.2 ((jsToUpper code), session)
        (jget_mem s.sessions (jsToUpper code) session hget)
      apply wfInv_set
      · exact hmem.1
      · exact hmem.2.1
      · exact hmem.2.2
      · exact hInv
    · exact hInv
  | cleanup now =>
    constructor
    · exact keysNodup_filter s.sessions _ hInv.1
    · intro p hp
      exact hInv.2 p (List.mem_of_mem_filter hp)

theorem wfInv_reachable {st : SMState} (h : Reachable st) : WFInv st := by
  unfold Reachable at h
  induction h with
  | refl => exact ⟨List.nodup_nil, fun p hp => absurd hp (List.not_mem_nil p)⟩
  | tail _ hstep ih => exact wfInv_step hstep ih

-- =========================================================================
-- Admin-membership invariant (claim C2)
-- =========================================================================

theorem stepA_step {s t : SMState} (h : StepA s t) : Step s t := by
  cases h with
  | create c nick picks g now => exact Step.create s c nick picks g now
  | join code sid nick ip g now => exact Step.join s code sid nick ip g now
  | kick code rq tg tIP now => exact Step.kick s code rq tg tIP now
  | ban code ip nick now => exact Step.ban s code ip nick now
  | unban code ip => exact Step.unban s code ip
  | remove sid now hside => exact Step.remove s sid now
  | storeKey code sid pk => exact Step.storeKey s code sid pk
  | touch code now => exact Step.touch s code now
  | cleanup now => exact Step.cleanup s now

theorem reachableA_reachable {st : SMState} (h : ReachableA st) :
    Reachable st := by
  unfold ReachableA at h
  unfold Reachable
  exact Relation.ReflTransGen.mono (fun {a b} hab => stepA_step hab) h

theorem adminInv_set (st : SMState) (key : String) (s' : Session)
    (hadm : jhas s'.users s'.adminId = true) (hInv : AdminInv st) :
    AdminInv { sessions := jset st.sessions key s' } := by
  intro p hp
  rcases mem_jset st.sessions key s' p hp with h | h
  · rw [h]; exact hadm
  · exact hInv p h

theorem adminInv_stepA {s t : SMState} (h : StepA s t) (hwf : WFInv s)
    (hInv : AdminInv s) : AdminInv t := by
  cases h with
  | create c nick picks g now =>
    unfold createSession
    apply adminInv_set
    · exact jhas_jset_self ([] : Jmap String User) c _
    · exact hInv
  | join code sid nick ip g now =>
    unfold joinSession
    split
    · exact hInv
    · rename_i session hget
      have hadm := hInv ((jsToUpper code), session)
        (jget_mem s.sessions (jsToUpper code) session hget)
      split
      · exact hInv
      · cases ip with
        | some a =>
          cases hb : jget session.bannedUsers a with
          | some banInfo => simp only [hb]; exact hInv
          | none =>
            simp only [hb]
            apply adminInv_set
            · exact jhas_jset_of session.users sid session.adminId _ hadm
            · exact hInv
        | none =>
          apply adminInv_set
          · exact jhas_jset_of session.users sid session.adminId _ hadm
          · exact hInv
  | kick code rq tg tIP now =>
    unfold kickUser
    split
    · exact hInv
    · rename_i session hget
      have hadm := hInv ((jsToUpper code), session)
        (jget_mem s.sessions (jsToUpper code) session hget)
      split
      · exact hInv
      · rename_i hrq
        split
        · exact hInv
        · rename_i htg
          split
          · exact hInv
          · rename_i targetUser hu
            have hrq' : session.adminId = rq := by
              by_contra hc
              exact hrq hc
            have hne : session.adminId ≠ tg := by
              intro hc
              exact htg (hc.symm.trans hrq')
            apply adminInv_set
            · show jhas (jdel session.users tg) session.adminId = true
              rw [jhas_jdel_ne session.users tg session.adminId hne]
              exact hadm
            · exact hInv
  | ban code ip nick now =>
    unfold banUser
    split
    · rename_i session a hget
      apply adminInv_set
      · exact hInv ((jsToUpper code), session)
          (jget_mem s.sessions (jsToUpper code) session hget)
      · exact hInv
    · exact hInv
  | unban code ip =>
    unfold unbanUser
    split
    · rename_i session hget
      apply adminInv_set
      · exact hInv ((jsToUpper code), session)
          (jget_mem s.sessions (jsToUpper code) session hget)
      · exact hInv
    · exact hInv
  | remove sid now hside =>
    unfold removeUser
    split
    · exact hInv
    · rename_i code session hfind
      have happly := hside (code, session) hfind
      unfold getSessionBySocketId at hfind
      have hmem : (code, session) ∈ s.sessions :=
        List.mem_of_find?_eq_some hfind
      have hjhas := List.find?_some hfind
      split
      · intro p hp
        exact hInv p (mem_jdel s.sessions code p hp)
      · rename_i hne0
        have hne : session.adminId ≠ sid := by
          rcases happly with h' | h'
          · exact h'
          · exfalso
            have h'' : jsize session.users ≤ 1 := h'
            have hcount := jsize_jdel_of_nodup session.users sid
              ((hwf.2 (code, session) hmem).1) hjhas
            omega
        apply adminInv_set
        · show jhas (jdel session.users sid) session.adminId = true
          rw [jhas_jdel_ne session.users sid session.adminId hne]
          exact hInv (code, session) hmem
        · exact hInv
  | storeKey code sid pk =>
    unfold storePublicKey
    split
    · rename_i session hget
      apply adminInv_set
      · exact hInv ((jsToUpper code), session)
          (jget_mem s.sessions (jsToUpper code) session hget)
      · exact hInv
    · exact hInv
  | touch code now =>
    unfold updateActivity
    split
    · rename_i session hget
      apply adminInv_set
      · exact hInv ((jsToUpper code), session)
          (jget_mem s.sessions (jsToUpper code) session hget)
      · exact hInv
    · exact hInv
  | cleanup now =>
    intro p hp
    exact hInv p (List.mem_of_mem_filter hp)

theorem adminInv_reachableA {st : SMState} (h : ReachableA st) :
    AdminInv st := by
  unfold ReachableA at h
  induction h with
  | refl => intro p hp; cases hp
  | tail hprev hstep ih =>
    exact adminInv_stepA hstep
      (wfInv_reachable (reachableA_reachable hprev)) ih

/-- C2 (counterexample): the claimed invariant fails on a reachable state.
Connection "A" creates "AAAAAAAA", "B" joins, then the admin "A" leaves via
`removeUser` (the single path used by disconnect/leave): the surviving
session's `adminId` is still "A" (never cleared or transferred), which is
no longer a member. -/
theorem C2_admin_counterexample :
    Reachable c2State3 ∧
    ∃ sess, jget c2State3.sessions "AAAAAAAA" = some sess ∧
      sess.adminId = "A" ∧ jhas sess.users sess.adminId = false := by
  refine ⟨?_, _, rfl, by decide, by decide⟩
  have h1 : Step { sessions := [] } c2State1 :=
    Step.create { sessions := [] } "A" none (List.replicate 8 0) "NickA" 0
  have h2 : Step c2State1 c2State2 :=
    Step.join c2State1 "AAAAAAAA" "B" none none "NickB" 1
  have h3 : Step c2State2 c2State3 := Step.remove c2State2 "A" 2
  exact ((Relation.ReflTransGen.refl.tail h1).tail h2).tail h3

/-- C2 (amended): `adminId` (which is always non-null in the code - it is
set at creation and never cleared) refers to a current member in every
state reachable while no session's admin is removed from a session that
keeps other members: `createSession` and `joinSession` establish and
preserve the invariant, `kickUser` preserves it (the admin cannot be the
kick target), and `removeUser` preserves it when the removed connection is
not the admin or is the sole member.  Removing the admin from a session
with other members breaks it, as the counterexample shows: `adminId` keeps
the departed connection's id. -/
theorem C2_admin_is_member_amended :
    ∀ st : SMState, ReachableA st → AdminInv st :=
  fun _ h => adminInv_reachableA h

/-- Witness for C2 (amended) at the concrete state where "A" created
"AAAAAAAA" and "B" joined. -/
theorem C2_admin_is_member_amended_witness : AdminInv c2State2 :=
  C2_admin_is_member_amended c2State2
    ((Relation.ReflTransGen.refl.tail
      (StepA.create { sessions := [] } "A" none (List.replicate 8 0) "NickA" 0)).tail
      (StepA.join c2State1 "AAAAAAAA" "B" none none "NickB" 1))

-- =========================================================================
-- removeUser functional correctness (claim C7)
-- =========================================================================

theorem removeUser_found (st : SMState) (socketId : String) (now : Nat)
    (code : String) (session : Session)
    (hfind : getSessionBySocketId st socketId = some (code, session)) :
    removeUser st socketId now =
      if jsize (jdel session.users socketId) = 0 then
        (some { code := code, user := jget session.users socketId,
                sessionDestroyed := true },
         { sessions := jdel st.sessions code })
      else
        (some { code := code, user := jget session.users socketId,
                sessionDestroyed := false,
                remainingUsers := some (jsize (jdel session.users socketId)) },
         { sessions := jset st.sessions code
             { session with users := jdel session.users socketId,
                            publicKeys := jdel session.publicKeys socketId,
                            lastActivity := now } }) := by
  unfold removeUser
  rw [hfind]

/-- C7: when `socketId` is a member of a session (resolved, as in the source,
by `getSessionBySocketId`), `removeUser` removes that member from the
session.  If the member was the last one the session is destroyed at once
(`sessionDestroyed = true` and `getSession` on its code reports not-found);
otherwise the result reports the remaining member count, and the surviving
session no longer contains the member and has `lastActivity` refreshed to
`now`.  (`jsToUpper code = code` holds for every stored key - codes are
drawn from an upper-case alphabet and stored upper-cased.) -/
theorem C7_removeMember_behaviour (st : SMState) (socketId : String)
    (now : Nat) (code : String) (session : Session) (hre : Reachable st)
    (hfind : getSessionBySocketId st socketId = some (code, session))
    (hup : jsToUpper code = code) :
    ∃ r, (removeUser st socketId now).1 = some r ∧ r.code = code ∧
      r.user = jget session.users socketId ∧
      (if jsize session.users = 1 then
        r.sessionDestroyed = true ∧ r.remainingUsers = none ∧
        getSession (removeUser st socketId now).2 code = none
       else
        r.sessionDestroyed = false ∧
        r.remainingUsers = some (jsize session.users - 1) ∧
        ∃ s', jget (removeUser st socketId now).2.sessions code = some s' ∧
          s'.lastActivity = now ∧ jhas s'.users socketId = false ∧
          jsize s'.users = jsize session.users - 1) := by
  have hwf := wfInv_reachable hre
  have hfind' := hfind
  unfold getSessionBySocketId at hfind'
  have hmem : (code, session) ∈ st.sessions :=
    List.mem_of_find?_eq_some hfind'
  have hjhas := List.find?_some hfind'
  have hnd : keysNodup session.users := (hwf.2 (code, session) hmem).1
  have hcount := jsize_jdel_of_nodup session.users socketId hnd hjhas
  rw [removeUser_found st socketId now code session hfind]
  by_cases hone : jsize session.users = 1
  · have hz : jsize (jdel session.users socketId) = 0 := by omega
    simp only [if_pos hz, if_pos hone]
    refine ⟨_, rfl, rfl, rfl, rfl, rfl, ?_⟩
    unfold getSession
    rw [hup]
    exact jget_jdel_self st.sessions code
  · have hz : ¬ (jsize (jdel session.users socketId) = 0) := by omega
    simp only [if_neg hz, if_neg hone]
    refine ⟨_, rfl, rfl, rfl, rfl, ?_, ?_⟩
    · have : jsize (jdel session.users socketId) = jsize session.users - 1 := by
        omega
      rw [this]
    · refine ⟨{ session with users := jdel session.users socketId,
                             publicKeys := jdel session.publicKeys socketId,
                             lastActivity := now },
        ?_, rfl, jhas_jdel_self session.users socketId, ?_⟩
      · exact jget_jset_self st.sessions code _
      · show jsize (jdel session.users socketId) = jsize session.users - 1
        omega

/-- Witness for C7: removing "B" from the concrete two-member session
"DDDDDDDD" keeps the session alive with one member and refreshed
activity. -/
theorem C7_removeMember_behaviour_witness :
    ∃ r, (removeUser c7State "B" 5).1 = some r ∧ r.code = "DDDDDDDD" ∧
      r.user = jget c7Session.users "B" ∧
      (if jsize c7Session.users = 1 then
        r.sessionDestroyed = true ∧ r.remainingUsers = none ∧
        getSession (removeUser c7State "B" 5).2 "DDDDDDDD" = none
       else
        r.sessionDestroyed = false ∧
        r.remainingUsers = some (jsize c7Session.users - 1) ∧
        ∃ s', jget (removeUser c7State "B" 5).2.sessions "DDDDDDDD" = some s' ∧
          s'.lastActivity = 5 ∧ jhas s'.users "B" = false ∧
          jsize s'.users = jsize c7Session.users - 1) :=
  C7_removeMember_behaviour c7State "B" 5 "DDDDDDDD" c7Session
    ((Relation.ReflTransGen.refl.tail
      (Step.create { sessions := [] } "A" none (List.replicate 8 3) "NA" 0)).tail
      (Step.join
        (createSession { sessions := [] } "A" none (List.replicate 8 3) "NA" 0).2
        "DDDDDDDD" "B" none none "NB" 1))
    (by decide) (by decide)

-- =========================================================================
-- Join does not detach from a prior session (claim C3)
-- =========================================================================

/-- C3 (counterexample): the at-most-one-session invariant fails on a state
reachable through the handlers.  "A" creates "AAAAAAAA", "B" creates
"BBBBBBBB", then "A" sends `join-session` for "BBBBBBBB": the handler never
detaches "A" from "AAAAAAAA" (it calls no `removeUser`), the join succeeds,
and afterwards "A" is a member of both live sessions. -/
theorem C3_single_membership_counterexample :
    Reachable c3State3 ∧
    (∃ ack, c3Handler.1 = some ack ∧ ack.success = true) ∧
    (∃ s1, jget c3State3.sessions "AAAAAAAA" = some s1 ∧
      jhas s1.users "A" = true) ∧
    (∃ s2, jget c3State3.sessions "BBBBBBBB" = some s2 ∧
      jhas s2.users "A" = true) ∧
    ¬ AtMostOneMembership c3State3 "A" := by
  refine ⟨?_, ⟨_, rfl, by decide⟩, ⟨_, rfl, by decide⟩, ⟨_, rfl, by decide⟩, ?_⟩
  · have h1 : Step { sessions := [] } c3State1 :=
      Step.create { sessions := [] } "A" none (List.replicate 8 0) "NA" 0
    have h2 : Step c3State1 c3State2 :=
      Step.create c3State1 "B" none (List.replicate 8 1) "NB" 1
    have h3 : Step c3State2 c3State3 :=
      Step.join c3State2 "BBBBBBBB" "A" none (some "1.1.1.1") "GA" 2
    exact ((Relation.ReflTransGen.refl.tail h1).tail h2).tail h3
  · intro hone
    have := hone ("AAAAAAAA", (jget c3State3.sessions "AAAAAAAA").getD
        { code := "", createdAt := 0, lastActivity := 0, adminId := "",
          users := [], publicKeys := [], bannedUsers := [] })
      (by decide)
      ("BBBBBBBB", (jget c3State3.sessions "BBBBBBBB").getD
        { code := "", createdAt := 0, lastActivity := 0, adminId := "",
          users := [], publicKeys := [], bannedUsers := [] })
      (by decide) (by decide) (by decide)
    exact absurd this (by decide)

/-- C3 (amended): `join-session` is a fresh join with no detach.  A
successful `joinSession` makes the connection a member of the target
session and leaves every other live session - in particular any session
the connection already belongs to - exactly as it was.  Hence a connection
that joins a second session becomes a member of both. -/
theorem C3_join_does_not_detach (st : SMState) (code socketId : String)
    (nick : Option String) (ip : Option String) (genNick : String)
    (now : Nat) (r : JoinResult) (st' : SMState)
    (h : joinSession st code socketId nick ip genNick now = (r, st'))
    (hs : r.success = true) :
    (∃ s', jget st'.sessions (jsToUpper code) = some s' ∧
      jhas s'.users socketId = true) ∧
    (∀ c' sOld, c' ≠ jsToUpper code → jget st.sessions c' = some sOld →
      jget st'.sessions c' = some sOld) := by
  unfold joinSession at h
  split at h
  · injection h with h1 h2
    rw [← h1] at hs
    exact absurd hs Bool.false_ne_true
  · split at h
    · injection h with h1 h2
      rw [← h1] at hs
      exact absurd hs Bool.false_ne_true
    · split at h
      · split at h
        · injection h with h1 h2
          rw [← h1] at hs
          exact absurd hs Bool.false_ne_true
        · injection h with h1 h2
          rw [← h2]
          refine ⟨⟨_, jget_jset_self st.sessions (jsToUpper code) _, ?_⟩, ?_⟩
          · exact jhas_jset_self _ socketId _
          · intro c' sOld hne hold
            rw [jget_jset_ne st.sessions (jsToUpper code) c' _ hne]
            exact hold
      · injection h with h1 h2
        rw [← h2]
        refine ⟨⟨_, jget_jset_self st.sessions (jsToUpper code) _, ?_⟩, ?_⟩
        · exact jhas_jset_self _ socketId _
        · intro c' sOld hne hold
          rw [jget_jset_ne st.sessions (jsToUpper code) c' _ hne]
          exact hold

/-- Witness for C3 (amended): the concrete join of "A" into "BBBBBBBB"
leaves "A"'s prior session "AAAAAAAA" untouched while adding "A" to
"BBBBBBBB". -/
theorem C3_join_does_not_detach_witness :
    (∃ s', jget (joinSession c3State2 "BBBBBBBB" "A" none (some "1.1.1.1")
        "GA" 2).2.sessions (jsToUpper "BBBBBBBB") = some s' ∧
      jhas s'.users "A" = true) ∧
    (∀ c' sOld, c' ≠ jsToUpper "BBBBBBBB" →
      jget c3State2.sessions c' = some sOld →
      jget (joinSession c3State2 "BBBBBBBB" "A" none (some "1.1.1.1")
        "GA" 2).2.sessions c' = some sOld) :=
  C3_join_does_not_detach c3State2 "BBBBBBBB" "A" none (some "1.1.1.1")
    "GA" 2 _ _ rfl (by decide)

-- =========================================================================
-- The Banned rejection echoes the banned nickname (claim C8)
-- =========================================================================

/-- C8 (counterexample): the Banned rejection does leak the banned
nickname.  On the reachable state where "B" (nickname "Victim", address
9.9.9.9) was kicked from "EEEEEEEE", a join-session from that address is
answered through the handler with an ack whose `bannedNickname` field is
`some "Victim"` - the manager's result object, `bannedNickname` included,
is passed to the rejected client's callback unchanged. -/
theorem C8_ban_rejection_leaks_nickname :
    Reachable c8State3 ∧
    (∃ ack, c8Handler.1 = some ack ∧ ack.success = false ∧
      ack.banned = some true ∧ ack.bannedNickname = some "Victim") := by
  refine ⟨?_, ⟨_, rfl, by decide, by decide, by decide⟩⟩
  have h1 : Step { sessions := [] } c8State1 :=
    Step.create { sessions := [] } "A" none (List.replicate 8 4) "NA" 0
  have h2 : Step c8State1 c8State2 :=
    Step.join c8State1 "EEEEEEEE" "B" none (some "9.9.9.9") "Victim" 1
  have h3 : Step c8State2 c8State3 :=
    Step.kick c8State2 "EEEEEEEE" "A" "B" (some "9.9.9.9") 2
  exact ((Relation.ReflTransGen.refl.tail h1).tail h2).tail h3

/-- C8 (amended): when a join is rejected because the joining address is in
the session's `bannedUsers`, the rejection carries `banned = true`, the
generic ban message, and - contrary to the claim - echoes the nickname
recorded at ban time in `bannedNickname`; the state is unchanged. -/
theorem C8_ban_rejection_content (st : SMState) (code socketId : String)
    (nick : Option String) (ip : String) (genNick : String) (now : Nat)
    (session : Session) (bi : BanInfo)
    (hget : jget st.sessions (jsToUpper code) = some session)
    (hlt : jsize session.users < MAX_USERS)
    (hban : jget session.bannedUsers ip = some bi) :
    joinSession st code socketId nick (some ip) genNick now =
      ({ success := false,
         error := some "You have been banned from this session. Contact the admin for approval.",
         banned := some true, bannedNickname := some bi.nickname }, st) := by
  simp only [joinSession, hget, hban, if_neg (Nat.not_le.mpr hlt)]

/-- Witness for C8 (amended) on the concrete post-kick state. -/
theorem C8_ban_rejection_content_witness :
    joinSession c8State3 "EEEEEEEE" "B2" none (some "9.9.9.9") "G" 3 =
      ({ success := false,
         error := some "You have been banned from this session. Contact the admin for approval.",
         banned := some true, bannedNickname := some "Victim" }, c8State3) :=
  C8_ban_rejection_content c8State3 "EEEEEEEE" "B2" none "9.9.9.9" "G" 3
    c8Session { nickname := "Victim", bannedAt := 2, reason := "Kicked by admin" }
    (by decide) (by decide) (by decide)

-- =========================================================================
-- Ban idempotence vs the capacity check (claim C4)
-- =========================================================================

theorem reachable_addJoins (st : SMState) (h : Reachable st) (n : Nat) :
    Reachable (addJoins st n) := by
  induction n with
  | zero => exact h
  | succ n ih =>
    have heq : addJoins st (n + 1) =
        (joinSession (addJoins st n) "FFFFFFFF"
          (String.mk (List.replicate (n + 1) 'j')) none
          (some (String.mk (List.replicate (n + 1) 'p'))) "NJ" 0).2 := by
      unfold addJoins
      rw [List.range_succ, List.foldl_append]
      rfl
    rw [heq]
    exact ih.tail (Step.join (addJoins st n) "FFFFFFFF"
      (String.mk (List.replicate (n + 1) 'j')) none
      (some (String.mk (List.replicate (n + 1) 'p'))) "NJ" 0)

/-- C4 (counterexample): a join from a banned address is NOT always
rejected with Banned.  On the reachable state where "FFFFFFFF" holds a ban
for address "p" and is full again (64 members), a join from "p" is rejected
by the capacity check, which the source runs before the ban check: the
response is the SessionFull error with no `banned` flag. -/
theorem C4_banned_join_rejected_as_full :
    Reachable c4Refull ∧
    (∃ sess, jget c4Refull.sessions "FFFFFFFF" = some sess ∧
      jget sess.bannedUsers "p" =
        some { nickname := "NJ", bannedAt := 1, reason := "Kicked by admin" } ∧
      jsize sess.users = 64) ∧
    joinSession c4Refull "FFFFFFFF" "victim" (some "AnyNick") (some "p")
        "G" 3 =
      ({ success := false, error := some "Session is full (max 64 users)" },
       c4Refull) := by
  refine ⟨?_, ⟨_, rfl, by decide, by decide⟩, by decide⟩
  have h1 : Reachable c4Base := Relation.ReflTransGen.single
    (Step.create { sessions := [] } "K" none (List.replicate 8 5) "NK" 0)
  have h2 : Reachable c4Full := reachable_addJoins c4Base h1 63
  have h3 : Reachable c4Kicked :=
    h2.tail (Step.kick c4Full "FFFFFFFF" "K" "j" (some "p") 1)
  exact h3.tail (Step.join c4Kicked "FFFFFFFF" "late" none (some "9.9.9.9")
    "NL" 2)

/-- C4 (amended): once an address is banned from a session, every join from
that address with any nickname is rejected; the rejection carries the
Banned flag whenever the session is below capacity (the capacity check runs
first, so a full session answers SessionFull instead).  After an explicit
`unbanUser` for that (session, address) pair, a join from the address is no
longer rejected on ban grounds: whatever the outcome, its `banned` field is
absent. -/
theorem C4_ban_until_unban (st : SMState) : 
    (∀ code socketId nick ip genNick now session bi,
      jget st.sessions (jsToUpper code) = some session →
      jsize session.users < MAX_USERS →
      jget session.bannedUsers ip = some bi →
      ((joinSession st code socketId nick (some ip) genNick now).1.success
          = false ∧
       (joinSession st code socketId nick (some ip) genNick now).1.banned
          = some true ∧
       (joinSession st code socketId nick (some ip) genNick now).2 = st)) ∧
    (∀ code ip socketId nick genNick now,
      ((joinSession (unbanUser st code ip).2 code socketId nick (some ip)
        genNick now).1).banned = none) := by
  constructor
  · intro code socketId nick ip genNick now session bi hget hlt hban
    simp only [joinSession, hget, hban, if_neg (Nat.not_le.mpr hlt)]
    exact ⟨trivial, trivial, trivial⟩
  · intro code ip socketId nick genNick now
    unfold unbanUser
    cases hget : jget st.sessions (jsToUpper code) with
    | none => simp only [joinSession, hget]
    | some session =>
      simp only [hget, joinSession, jget_jset_self]
      split
      · rfl
      · simp only [jget_jdel_self]

/-- Witness for C4 (amended): on the concrete 63-member post-kick state a
join from the banned address "p" is rejected with Banned and no state
change; after unbanning "p" a join from "p" is not rejected on ban
grounds. -/
theorem C4_ban_until_unban_witness :
    ((joinSession c4Kicked "FFFFFFFF" "victim" (some "AnyNick") (some "p")
        "G" 3).1.success = false ∧
     (joinSession c4Kicked "FFFFFFFF" "victim" (some "AnyNick") (some "p")
        "G" 3).1.banned = some true ∧
     (joinSession c4Kicked "FFFFFFFF" "victim" (some "AnyNick") (some "p")
        "G" 3).2 = c4Kicked) ∧
    ((joinSession (unbanUser c4Kicked "FFFFFFFF" "p").2 "FFFFFFFF" "victim"
        (some "AnyNick") (some "p") "G" 3).1).banned = none :=
  ⟨(C4_ban_until_unban c4Kicked).1 "FFFFFFFF" "victim" (some "AnyNick") "p"
      "G" 3 c4KickedSession
      { nickname := "NJ", bannedAt := 1, reason := "Kicked by admin" }
      (by decide) (by decide) (by decide),
   (C4_ban_until_unban c4Kicked).2 "FFFFFFFF" "p" "victim" (some "AnyNick")
      "G" 3⟩

-- =========================================================================
-- Abuse escalation and blocking (claim C6)
-- =========================================================================

/-- C6 (counterexample): not every inbound event from a blocked connection
is dropped.  `c6Blocked` is the abuse-control state after 50 rate-limit
violations (the code's own `trackAbuse` path), so "s1"/"ip1" are blocked;
yet a `typing` event from the blocked, still-connected member "s1" is
processed and broadcast - the typing handler has no block gate and never
consults the abuse-control state. -/
theorem C6_blocked_typing_still_processed :
    isBlocked c6Blocked "s1" "ip1" = true ∧
    jget c6Blocked.abuseCounter (abuseKey "ip1" "s1") =
      some { count := 50, windowStart := 0 } ∧
    Reachable c6Sm ∧
    typingHandler c6Sm "s1" (some ("GGGGGGGG", true)) =
      some { room := "GGGGGGGG", senderId := "s1", nickname := "N6",
             isTyping := true } := by
  refine ⟨by decide, by decide, ?_, by decide⟩
  exact Relation.ReflTransGen.single
    (Step.create { sessions := [] } "s1" none (List.replicate 8 6) "N6" 0)

/-- C6 (amended): when the abuse counter of an `(address, connection)` key
reaches `ABUSE_THRESHOLD = 50` inside the 60-second window, `trackAbuse`
inserts the connection id and the address into the blocked sets and
schedules the TTL timer for `now + BLOCK_TTL` (300 s); while blocked, the
gated handlers - `create-session`, `join-session` and `send-message` - drop
the event with no reply and no state change, regardless of the per-window
rate-limit state; when the TTL timer fires, both block entries and the
abuse-counter key are cleared.  Handlers without the gate (e.g. `typing`)
are not affected, as the counterexample shows. -/
theorem C6_abuse_escalation_amended :
    (∀ (rl : RLState) (sid ip : String) (now : Nat) (e : RateEntry),
      jget rl.abuseCounter (abuseKey ip sid) = some e →
      now - e.windowStart ≤ ABUSE_WINDOW →
      ABUSE_THRESHOLD ≤ e.count + 1 →
      (trackAbuse rl sid ip now).blockedSockets.contains sid = true ∧
      (trackAbuse rl sid ip now).blockedIPs.contains ip = true ∧
      ({ fireAt := now + BLOCK_TTL, socketId := sid, ip := ip,
         key := abuseKey ip sid } : BlockTimer) ∈
        (trackAbuse rl sid ip now).timers) ∧
    (∀ rl sm sid ip data genNick now, isBlocked rl sid ip = true →
      joinSessionHandler rl sm sid ip data genNick now = (none, sm)) ∧
    (∀ W N rl sm sid ip data now, isBlocked rl sid ip = true →
      sendMessageHandler W N rl sm sid ip data now =
        (SendOutcome.dropped, rl, sm)) ∧
    (∀ rl sm sid ip rawNick picks genNick now, isBlocked rl sid ip = true →
      createSessionHandler rl sm sid ip rawNick picks genNick now =
        (none, sm)) ∧
    (∀ rl t, isBlocked (fireBlockTimeout rl t) t.socketId t.ip = false ∧
      jget (fireBlockTimeout rl t).abuseCounter t.key = none) := by
  refine ⟨?_, ?_, ?_, ?_, ?_⟩
  · intro rl sid ip now e hget hwin hth
    have hW : ¬ (ABUSE_WINDOW < now - e.windowStart) := Nat.not_lt.mpr hwin
    simp only [trackAbuse, hget, if_neg hW, if_pos hth]
    refine ⟨jsAdd_contains _ sid, jsAdd_contains _ ip, ?_⟩
    exact List.mem_append_right _ (List.mem_singleton_self _)
  · intro rl sm sid ip data genNick now hb
    unfold joinSessionHandler
    rw [if_pos hb]
  · intro W N rl sm sid ip data now hb
    unfold sendMessageHandler
    rw [if_pos hb]
  · intro rl sm sid ip rawNick picks genNick now hb
    unfold createSessionHandler
    rw [if_pos hb]
  · intro rl t
    constructor
    · unfold isBlocked fireBlockTimeout
      rw [filter_ne_not_contains, filter_ne_not_contains]
      rfl
    · exact jget_jdel_self rl.abuseCounter t.key

/-- Witness for C6 (amended) at concrete inputs: a counter at 49 inside the
window escalates to a block with a 300 s timer; the blocked state drops a
join, a send and a create; firing the timer clears the block and the
counter key. -/
theorem C6_abuse_escalation_amended_witness :
    ((trackAbuse { abuseCounter := [(abuseKey "ip1" "s1",
        { count := 49, windowStart := 0 })] } "s1" "ip1"
        10).blockedSockets.contains "s1" = true ∧
     (trackAbuse { abuseCounter := [(abuseKey "ip1" "s1",
        { count := 49, windowStart := 0 })] } "s1" "ip1"
        10).blockedIPs.contains "ip1" = true ∧
     ({ fireAt := 10 + BLOCK_TTL, socketId := "s1", ip := "ip1",
        key := abuseKey "ip1" "s1" } : BlockTimer) ∈
       (trackAbuse { abuseCounter := [(abuseKey "ip1" "s1",
          { count := 49, windowStart := 0 })] } "s1" "ip1" 10).timers) ∧
    joinSessionHandler c6Blocked c6Sm "s1" "ip1"
      (some { code := some "GGGGGGGG" }) "G" 5 = (none, c6Sm) ∧
    sendMessageHandler 1000 5 c6Blocked c6Sm "s1" "ip1" none 5 =
      (SendOutcome.dropped, c6Blocked, c6Sm) ∧
    createSessionHandler c6Blocked c6Sm "s1" "ip1" none
      (List.replicate 8 8) "G" 5 = (none, c6Sm) ∧
    (isBlocked (fireBlockTimeout c6Blocked
        { fireAt := 300000, socketId := "s1", ip := "ip1",
          key := abuseKey "ip1" "s1" }) "s1" "ip1" = false ∧
     jget (fireBlockTimeout c6Blocked
        { fireAt := 300000, socketId := "s1", ip := "ip1",
          key := abuseKey "ip1" "s1" }).abuseCounter
       (abuseKey "ip1" "s1") = none) :=
  ⟨C6_abuse_escalation_amended.1 _ "s1" "ip1" 10
      { count := 49, windowStart := 0 } (by decide) (by decide) (by decide),
   C6_abuse_escalation_amended.2.1 c6Blocked c6Sm "s1" "ip1"
      (some { code := some "GGGGGGGG" }) "G" 5 (by decide),
   C6_abuse_escalation_amended.2.2.1 1000 5 c6Blocked c6Sm "s1" "ip1" none 5
      (by decide),
   C6_abuse_escalation_amended.2.2.2.1 c6Blocked c6Sm "s1" "ip1" none
      (List.replicate 8 8) "G" 5 (by decide),
   C6_abuse_escalation_amended.2.2.2.2 c6Blocked
      { fireAt := 300000, socketId := "s1", ip := "ip1",
        key := abuseKey "ip1" "s1" }⟩

-- =========================================================================
-- Disconnect cleanup (claim C10)
-- =========================================================================

/-- C10 (counterexample): disconnect does NOT release the abuse-counter
entry keyed by the connection.  Before the disconnect, `c10Full` holds an
abuse-counter entry under key "ip1:s1" (built by the code's own
`trackAbuse` / `checkRateLimit` path).  After the `disconnect` handler
runs, the membership and the `messageRateLimiter` entry for "s1" are gone,
but the abuse-counter entry keyed by the connection is still there. -/
theorem C10_abuse_counter_survives_disconnect :
    jhas c10After.rl.messageRateLimiter "s1" = false ∧
    getSessionBySocketId c10After.sm "s1" = none ∧
    jget c10After.rl.abuseCounter (abuseKey "ip1" "s1") =
      some { count := 3, windowStart := 0 } := by
  exact ⟨by decide, by decide, by decide⟩

theorem removeUser_clears_membership (sm : SMState) (sid : String)
    (now : Nat) (hnd : keysNodup sm.sessions)
    (hone : AtMostOneMembership sm sid) :
    ∀ p ∈ (removeUser sm sid now).2.sessions, jhas p.2.users sid = false := by
  unfold removeUser
  split
  · rename_i hfind
    unfold getSessionBySocketId at hfind
    rw [List.find?_eq_none] at hfind
    intro p hp
    cases hcase : jhas p.2.users sid with
    | false => rfl
    | true => exact absurd hcase (hfind p hp)
  · rename_i code session hfind
    unfold getSessionBySocketId at hfind
    have hmem := List.mem_of_find?_eq_some hfind
    have hjhas := List.find?_some hfind
    split
    · intro p hp
      have hkey := mem_jdel_key sm.sessions code p hp
      cases hcase : jhas p.2.users sid with
      | false => rfl
      | true =>
        exfalso
        have heq : p.1 = code := hone p hkey.1 (code, session) hmem hcase hjhas
        have htrue : (p.1 == code) = true := by
          rw [heq]; exact beq_self_eq_true code
        exact Bool.false_ne_true (hkey.2.symm.trans htrue)
    · intro p hp
      rcases mem_jset_nodup sm.sessions code _ hnd p hp with h' | h'
      · rw [h']
        exact jhas_jdel_self session.users sid
      · cases hcase : jhas p.2.users sid with
        | false => rfl
        | true =>
          exfalso
          have heq : p.1 = code := hone p h'.1 (code, session) hmem hcase hjhas
          have htrue : (p.1 == code) = true := by
            rw [heq]; exact beq_self_eq_true code
          exact Bool.false_ne_true (h'.2.symm.trans htrue)

/-- C10 (amended): the `disconnect` handler routes the connection through
`removeUser` - clearing its membership (under the per-connection
single-membership discipline and JS-Map key uniqueness) - and deletes the
connection's `messageRateLimiter` entry; but that is all: the abuse
counter, the per-address socket rate limiter and the blocked sets are left
exactly as they were, so abuse-counter entries keyed by `(address,
connection)` survive the disconnect until their own window reset or
block-TTL expiry. -/
theorem C10_disconnect_incomplete_cleanup (st : FullState) (sid : String)
    (now : Nat) (hnd : keysNodup st.sm.sessions)
    (hone : AtMostOneMembership st.sm sid) :
    jhas (disconnectHandler st sid now).rl.messageRateLimiter sid = false ∧
    (∀ p ∈ (disconnectHandler st sid now).sm.sessions,
      jhas p.2.users sid = false) ∧
    (disconnectHandler st sid now).rl.abuseCounter = st.rl.abuseCounter ∧
    (disconnectHandler st sid now).rl.socketRateLimiters =
      st.rl.socketRateLimiters ∧
    (disconnectHandler st sid now).rl.blockedSockets =
      st.rl.blockedSockets ∧
    (disconnectHandler st sid now).rl.blockedIPs = st.rl.blockedIPs := by
  refine ⟨jhas_jdel_self st.rl.messageRateLimiter sid, ?_, rfl, rfl, rfl, rfl⟩
  exact removeUser_clears_membership st.sm sid now hnd hone

/-- Witness for C10 (amended) on the concrete pre-disconnect state. -/
theorem C10_disconnect_incomplete_cleanup_witness :
    jhas (disconnectHandler c10Full "s1" 9).rl.messageRateLimiter "s1" =
      false ∧
    (∀ p ∈ (disconnectHandler c10Full "s1" 9).sm.sessions,
      jhas p.2.users "s1" = false) ∧
    (disconnectHandler c10Full "s1" 9).rl.abuseCounter =
      c10Full.rl.abuseCounter ∧
    (disconnectHandler c10Full "s1" 9).rl.socketRateLimiters =
      c10Full.rl.socketRateLimiters ∧
    (disconnectHandler c10Full "s1" 9).rl.blockedSockets =
      c10Full.rl.blockedSockets ∧
    (disconnectHandler c10Full "s1" 9).rl.blockedIPs =
      c10Full.rl.blockedIPs :=
  C10_disconnect_incomplete_cleanup c10Full "s1" 9
    (by unfold keysNodup; decide) (by unfold AtMostOneMembership; decide)

end P2PChat
